import Mathlib

/-!
# Verification of the appsec resource-client package

A shallow embedding, in Lean 4, of the Go package `pkg/appsec` of the
AkamaiOPEN-edgegrid-golang repository (files `attack_group.go`,
`custom_deny.go` (which also carries `match_target.go` and
`reputation_analysis.go`), `reputation_profile.go`,
`api_hostname_coverage_overlapping.go`, `configuration_clone.go`,
`version_notes.go`), together with theorems settling the specification
claims about it.

Modelling conventions:
* Go `int` is modelled by `Int`, Go `string` by `String`,
  `json.RawMessage` by `RawJson` (`String`, the raw bytes),
  `time.Time` by `GoTime` (an abstract carrier).
* The shared authenticated HTTP executor `p.Exec` (an external
  collaborator of the package, not part of the sources) is a parameter of
  every operation: a function from the call the operation issues to an
  outcome (a transport error, or a status code and the decoded body).
  Each operation returns, next to its Go result, the list of calls it
  handed to `Exec`, so that theorems can speak about what reached the
  transport.
* The shared error mapper `p.Error(resp)` is modelled by
  `AppsecErr.apiErr status`.
* `fmt.Sprintf` with `%d`/`%s` verbs is modelled by string concatenation
  with `toString`; the `url.Parse`/`String` round trip performed by the
  two delete operations is the identity on the path-only URLs built here
  and is modelled as such; the failure branches of
  `http.NewRequestWithContext` and `url.Parse` are unreachable for these
  URLs and are not modelled.
-/

namespace Appsec

/-- Raw JSON bytes (Go `json.RawMessage`), kept byte for byte. -/
abbrev RawJson := String

/-- Abstract carrier for Go `time.Time` values. -/
abbrev GoTime := String

/-! ## JSON values and the dynamic values produced by `encoding/json`

`json.Unmarshal(data, &nums)` with `nums interface{}` decodes a JSON
document into a dynamic Go value: JSON strings become `string`, JSON
numbers become `float64` (always, never `int`), booleans become `bool`,
arrays become `[]interface{}`, objects become `map[string]interface{}`,
and `null` becomes the untyped `nil` (whose `reflect.Value` has kind
`Invalid`). `GoValue` is that dynamic value; its `int` constructor exists
because Go's `reflect` package has an `Int` kind, but no JSON input ever
produces it. Numeric payloads are carried as `Int`, which covers every
input the claims exercise; only the reflect *kind* of the value is ever
inspected by the decoders below. -/

/-- A well-formed JSON document. -/
inductive Json where
  | null
  | bool (b : Bool)
  | num (n : Int)
  | str (s : String)
  | arr (elems : List Json)
  | obj (fields : List (String × Json))

/-- The dynamic value `json.Unmarshal` stores into an `interface{}`,
as seen through `reflect.ValueOf`. -/
inductive GoValue where
  | nil                                      -- JSON null; reflect kind Invalid
  | bool (b : Bool)                          -- reflect kind Bool
  | float64 (n : Int)                        -- reflect kind Float64: every JSON number
  | int (n : Int)                            -- reflect kind Int: never produced from JSON
  | str (s : String)                         -- reflect kind String
  | slice (elems : List GoValue)             -- reflect kind Slice ([]interface{})
  | map (fields : List (String × GoValue))   -- reflect kind Map (map[string]interface{})

mutual

/-- How `json.Unmarshal` into `interface{}` renders a JSON document. -/
def Json.toGoValue : Json → GoValue
  | .null => .nil
  | .bool b => .bool b
  | .num n => .float64 n
  | .str s => .str s
  | .arr elems => .slice (Json.listToGoValue elems)
  | .obj fields => .map (Json.fieldsToGoValue fields)

/-- Element-wise `Json.toGoValue` over an array's elements. -/
def Json.listToGoValue : List Json → List GoValue
  | [] => []
  | j :: js => j.toGoValue :: Json.listToGoValue js

/-- Field-wise `Json.toGoValue` over an object's fields. -/
def Json.fieldsToGoValue : List (String × Json) → List (String × GoValue)
  | [] => []
  | (k, j) :: fs => (k, j.toGoValue) :: Json.fieldsToGoValue fs

end

/-! ## The flexible-type decoders (`customDenyID`, `atomicConditionsName`) -/

/-- `custom_deny.go`: `customDenyID string`. -/
abbrev customDenyID := String

/-- `reputation_profile.go`: `atomicConditionsName []string`. -/
abbrev atomicConditionsName := List String

/-- `strconv.Itoa`: the decimal string form of an integer. -/
def strconvItoa (n : Int) : String := toString n

/-- `custom_deny.go`, `func (c *customDenyID) UnmarshalJSON(data []byte) error`:
unmarshal `data` into an `interface{}`, switch on the reflect kind of the
result, and overwrite `*c` in the `String` and `Int` cases; any other kind
leaves `*c` (the argument `c` here) unchanged.  On well-formed JSON the
function always returns a nil error, so the model returns just the
resulting value. -/
def customDenyID.unmarshalJSON (c : customDenyID) (data : Json) : customDenyID :=
  match data.toGoValue with
  | .str s => s                 -- case reflect.String
  | .int n => strconvItoa n     -- case reflect.Int (dead: JSON numbers are float64)
  | _ => c                      -- no matching case: *c keeps its previous value

/-- The result of running a Go `UnmarshalJSON` body that can abort on a
failed type assertion: either the updated receiver (with a nil error) or
a run-time panic. -/
inductive UnmarshalOutcome (α : Type) where
  | ok (a : α)
  | panicked
  deriving Repr, DecidableEq

/-- The inner loop of the `reflect.Slice` case of
`atomicConditionsName.UnmarshalJSON`.  Each element of the decoded
`[]interface{}` is reached through `items.Index(i)`, whose reflect kind
is always `Interface`; the loop's `case reflect.String` is therefore
dead, and its `case reflect.Interface` runs `item.Interface().(string)`,
a type assertion that panics unless the element's dynamic type is
`string`. -/
def atomicConditionsName.collectStrings :
    List GoValue → atomicConditionsName → UnmarshalOutcome atomicConditionsName
  | [], acc => .ok acc
  | item :: rest, acc =>
    match item with
    | .str s => atomicConditionsName.collectStrings rest (acc ++ [s])
    | _ => .panicked

/-- `reputation_profile.go`,
`func (c *atomicConditionsName) UnmarshalJSON(data []byte) error`:
unmarshal `data` into an `interface{}` and switch on the reflect kind.
A string appends itself to `*c`; a slice resets `*c` and collects the
elements through the loop above; any other kind leaves `*c` unchanged
(returning a nil error). -/
def atomicConditionsName.unmarshalJSON (c : atomicConditionsName) (data : Json) :
    UnmarshalOutcome atomicConditionsName :=
  match data.toGoValue with
  | .str s => .ok (c ++ [s])                              -- case reflect.String
  | .slice items => atomicConditionsName.collectStrings items []  -- case reflect.Slice
  | _ => .ok c                                            -- no matching case

/-! ## The request validator (`ozzo-validation`)

Every `Validate` method in the package builds a
`validation.Errors{key: validation.Validate(value, validation.Required), ...}`
map and calls `.Filter()` on it, which drops the nil entries and returns a
nil error exactly when nothing is left.  `validation.Required` fails
exactly when the value is its Go zero value (`0` for int, `""` for
string).  The map is modelled as the list of keys whose `Required` rule
failed, in the textual order of the source; `[]` models the nil error. -/

/-- The keys of a `validation.Errors` map whose rule failed, after `.Filter()`. -/
def validationErrors (entries : List (String × Bool)) : List String :=
  (entries.filter (fun e => e.2)).map (fun e => e.1)

/-- `validation.Required` applied to a Go `int`: fails exactly on `0`. -/
def requiredInt (n : Int) : Bool := n == 0

/-- `validation.Required` applied to a Go `string`: fails exactly on `""`. -/
def requiredString (s : String) : Bool := s == ""

/-! ## `custom_deny.go`: request and response structures -/

/-- The anonymous `parameters` entry shared by the custom-deny responses. -/
structure CustomDenyParameter where
  DisplayName : String
  Name : String
  Value : String

/-- The anonymous entry of `GetCustomDenyListResponse.CustomDenyList`. -/
structure CustomDenyListEntry where
  Description : String
  Name : String
  ID : customDenyID
  Parameters : List CustomDenyParameter

structure GetCustomDenyListRequest where
  ConfigID : Int
  Version : Int
  ID : String

structure GetCustomDenyListResponse where
  CustomDenyList : List CustomDenyListEntry

structure GetCustomDenyRequest where
  ConfigID : Int
  Version : Int
  ID : String

structure GetCustomDenyResponse where
  Description : String
  Name : String
  ID : customDenyID
  Parameters : List CustomDenyParameter

structure CreateCustomDenyRequest where
  ConfigID : Int
  Version : Int
  JsonPayloadRaw : RawJson

structure CreateCustomDenyResponse where
  Description : String
  Name : String
  ID : customDenyID
  Parameters : List CustomDenyParameter

structure UpdateCustomDenyRequest where
  ConfigID : Int
  Version : Int
  ID : String
  JsonPayloadRaw : RawJson

structure UpdateCustomDenyResponse where
  Description : String
  Name : String
  ID : customDenyID
  Parameters : List CustomDenyParameter

structure RemoveCustomDenyRequest where
  ConfigID : Int
  Version : Int
  ID : String

structure RemoveCustomDenyResponse where
  Empty : String

/-- `func (v GetCustomDenyRequest) Validate() error`. -/
def GetCustomDenyRequest.Validate (v : GetCustomDenyRequest) : List String :=
  validationErrors [
    ("ConfigID", requiredInt v.ConfigID),
    ("Version", requiredInt v.Version),
    ("ID", requiredString v.ID)]

/-- `func (v GetCustomDenyListRequest) Validate() error`. -/
def GetCustomDenyListRequest.Validate (v : GetCustomDenyListRequest) : List String :=
  validationErrors [
    ("ConfigID", requiredInt v.ConfigID),
    ("Version", requiredInt v.Version)]

/-- `func (v CreateCustomDenyRequest) Validate() error`. -/
def CreateCustomDenyRequest.Validate (v : CreateCustomDenyRequest) : List String :=
  validationErrors [
    ("ConfigID", requiredInt v.ConfigID),
    ("Version", requiredInt v.Version)]

/-- `func (v UpdateCustomDenyRequest) Validate() error`. -/
def UpdateCustomDenyRequest.Validate (v : UpdateCustomDenyRequest) : List String :=
  validationErrors [
    ("ConfigID", requiredInt v.ConfigID),
    ("Version", requiredInt v.Version),
    ("ID", requiredString v.ID)]

/-- `func (v RemoveCustomDenyRequest) Validate() error`. -/
def RemoveCustomDenyRequest.Validate (v : RemoveCustomDenyRequest) : List String :=
  validationErrors [
    ("ConfigID", requiredInt v.ConfigID),
    ("Version", requiredInt v.Version),
    ("ID", requiredString v.ID)]

/-! ## `match_target.go`: request and response structures

Go field names are kept; the field `Type` is rendered `Type'` because
`Type` is reserved in Lean. -/

/-- The anonymous `apis` entry of the match-target structures. -/
structure ApiRef where
  ID : Int
  Name : String

/-- The anonymous `securityPolicy` member of the match-target structures. -/
structure SecurityPolicyRef where
  PolicyID : String

/-- The anonymous `bypassNetworkLists` entry of the match-target structures. -/
structure BypassNetworkListRef where
  Name : String
  ID : String

/-- The anonymous `apiTargets` entry of `GetMatchTargetsResponse`. -/
structure APITarget where
  Type' : String
  Apis : List ApiRef
  Sequence : Int
  TargetID : Int
  ConfigID : Int
  ConfigVersion : Int
  SecurityPolicy : SecurityPolicyRef
  BypassNetworkLists : List BypassNetworkListRef

/-- The anonymous `websiteTargets` entry of `GetMatchTargetsResponse`. -/
structure WebsiteTarget where
  ConfigID : Int
  ConfigVersion : Int
  DefaultFile : String
  IsNegativeFileExtensionMatch : Bool
  IsNegativePathMatch : Option RawJson
  Sequence : Int
  TargetID : Int
  Type' : String
  FileExtensions : List String
  FilePaths : List String
  Hostnames : List String
  SecurityPolicy : SecurityPolicyRef
  BypassNetworkLists : List BypassNetworkListRef

/-- The anonymous `matchTargets` member of `GetMatchTargetsResponse`. -/
structure MatchTargetsPayload where
  APITargets : List APITarget
  WebsiteTargets : List WebsiteTarget

structure GetMatchTargetsRequest where
  ConfigID : Int
  ConfigVersion : Int
  TargetID : Int

structure GetMatchTargetsResponse where
  MatchTargets : MatchTargetsPayload

structure GetMatchTargetRequest where
  ConfigID : Int
  ConfigVersion : Int
  TargetID : Int

structure GetMatchTargetResponse where
  Type' : String
  Apis : List ApiRef
  DefaultFile : String
  Hostnames : List String
  IsNegativeFileExtensionMatch : Bool
  IsNegativePathMatch : Option RawJson
  FilePaths : List String
  FileExtensions : List String
  SecurityPolicy : SecurityPolicyRef
  Sequence : Int
  TargetID : Int
  BypassNetworkLists : List BypassNetworkListRef

structure CreateMatchTargetRequest where
  Type' : String
  ConfigID : Int
  ConfigVersion : Int
  JsonPayloadRaw : RawJson

structure CreateMatchTargetResponse where
  MType : String
  Apis : List ApiRef
  DefaultFile : String
  Hostnames : List String
  IsNegativeFileExtensionMatch : Bool
  IsNegativePathMatch : Option RawJson
  FilePaths : List String
  FileExtensions : List String
  SecurityPolicy : SecurityPolicyRef
  Sequence : Int
  TargetID : Int
  BypassNetworkLists : List BypassNetworkListRef

structure UpdateMatchTargetRequest where
  ConfigID : Int
  ConfigVersion : Int
  JsonPayloadRaw : RawJson
  TargetID : Int

structure UpdateMatchTargetResponse where
  Type' : String
  ConfigID : Int
  ConfigVersion : Int
  DefaultFile : String
  Hostnames : List String
  IsNegativeFileExtensionMatch : Bool
  IsNegativePathMatch : Option RawJson
  FilePaths : List String
  FileExtensions : List String
  SecurityPolicy : SecurityPolicyRef
  Sequence : Int
  TargetID : Int
  BypassNetworkLists : List BypassNetworkListRef

structure RemoveMatchTargetRequest where
  ConfigID : Int
  ConfigVersion : Int
  TargetID : Int

structure RemoveMatchTargetResponse where
  Type' : String
  ConfigID : Int
  ConfigVersion : Int
  DefaultFile : String
  Hostnames : List String
  IsNegativeFileExtensionMatch : Bool
  IsNegativePathMatch : Bool
  FilePaths : List String
  FileExtensions : List String
  SecurityPolicy : SecurityPolicyRef
  Sequence : Int
  TargetID : Int
  BypassNetworkLists : List BypassNetworkListRef

/-- The Go zero value of `RemoveMatchTargetResponse`: `RemoveMatchTarget`
declares `var result RemoveMatchTargetResponse`, passes `nil` to `Exec`
as the decode destination, and returns `&result` untouched. -/
def RemoveMatchTargetResponse.zero : RemoveMatchTargetResponse :=
  ⟨"", 0, 0, "", [], false, false, [], [], ⟨""⟩, 0, 0, []⟩

/-- `func (v GetMatchTargetRequest) Validate() error`. -/
def GetMatchTargetRequest.Validate (v : GetMatchTargetRequest) : List String :=
  validationErrors [
    ("ConfigID", requiredInt v.ConfigID),
    ("ConfigVersion", requiredInt v.ConfigVersion),
    ("TargetID", requiredInt v.TargetID)]

/-- `func (v GetMatchTargetsRequest) Validate() error`. -/
def GetMatchTargetsRequest.Validate (v : GetMatchTargetsRequest) : List String :=
  validationErrors [
    ("ConfigID", requiredInt v.ConfigID),
    ("ConfigVersion", requiredInt v.ConfigVersion)]

/-- `func (v CreateMatchTargetRequest) Validate() error`. -/
def CreateMatchTargetRequest.Validate (v : CreateMatchTargetRequest) : List String :=
  validationErrors [
    ("ConfigID", requiredInt v.ConfigID),
    ("ConfigVersion", requiredInt v.ConfigVersion)]

/-- `func (v UpdateMatchTargetRequest) Validate() error`. -/
def UpdateMatchTargetRequest.Validate (v : UpdateMatchTargetRequest) : List String :=
  validationErrors [
    ("ConfigID", requiredInt v.ConfigID),
    ("ConfigVersion", requiredInt v.ConfigVersion),
    ("TargetID", requiredInt v.TargetID)]

/-- `func (v RemoveMatchTargetRequest) Validate() error`. -/
def RemoveMatchTargetRequest.Validate (v : RemoveMatchTargetRequest) : List String :=
  validationErrors [
    ("ConfigID", requiredInt v.ConfigID),
    ("ConfigVersion", requiredInt v.ConfigVersion),
    ("TargetID", requiredInt v.TargetID)]

/-! ## `reputation_analysis.go`: request and response structures -/

structure GetReputationAnalysisRequest where
  ConfigID : Int
  Version : Int
  PolicyID : String

structure GetReputationAnalysisResponse where
  ConfigID : Int
  Version : Int
  PolicyID : String
  ForwardToHTTPHeader : Bool
  ForwardSharedIPToHTTPHeaderAndSIEM : Bool

structure UpdateReputationAnalysisRequest where
  ConfigID : Int
  Version : Int
  PolicyID : String
  ForwardToHTTPHeader : Bool
  ForwardSharedIPToHTTPHeaderAndSIEM : Bool

structure UpdateReputationAnalysisResponse where
  ForwardToHTTPHeader : Bool
  ForwardSharedIPToHTTPHeaderAndSIEM : Bool

structure RemoveReputationAnalysisRequest where
  ConfigID : Int
  Version : Int
  PolicyID : String
  ForwardToHTTPHeader : Bool
  ForwardSharedIPToHTTPHeaderAndSIEM : Bool

structure RemoveReputationAnalysisResponse where
  ForwardToHTTPHeader : Bool
  ForwardSharedIPToHTTPHeaderAndSIEM : Bool

/-- `func (v GetReputationAnalysisRequest) Validate() error`. -/
def GetReputationAnalysisRequest.Validate (v : GetReputationAnalysisRequest) : List String :=
  validationErrors [
    ("ConfigID", requiredInt v.ConfigID),
    ("Version", requiredInt v.Version),
    ("PolicyID", requiredString v.PolicyID)]

/-- `func (v UpdateReputationAnalysisRequest) Validate() error`. -/
def UpdateReputationAnalysisRequest.Validate (v : UpdateReputationAnalysisRequest) : List String :=
  validationErrors [
    ("ConfigID", requiredInt v.ConfigID),
    ("Version", requiredInt v.Version),
    ("PolicyID", requiredString v.PolicyID)]

/-- `func (v RemoveReputationAnalysisRequest) Validate() error` (defined in
the source, but never called by `RemoveReputationAnalysis`). -/
def RemoveReputationAnalysisRequest.Validate (v : RemoveReputationAnalysisRequest) : List String :=
  validationErrors [
    ("ConfigID", requiredInt v.ConfigID),
    ("Version", requiredInt v.Version),
    ("PolicyID", requiredString v.PolicyID)]

/-! ## `attack_group.go`: request and response structures -/

/-- The anonymous entry of `AttackGroupConditions`. -/
structure AttackGroupCondition where
  Type' : String
  Extensions : List String
  Filenames : List String
  Hosts : List String
  Ips : List String
  Methods : List String
  Paths : List String
  Header : String
  CaseSensitive : Bool
  Name : String
  NameCase : Bool
  PositiveMatch : Bool
  Value : String
  Wildcard : Bool
  ValueCase : Bool
  ValueWildcard : Bool
  UseHeaders : Bool

/-- `AttackGroupConditions []struct{...}`. -/
abbrev AttackGroupConditions := List AttackGroupCondition

/-- The anonymous entry of `AttackGroupAdvancedCriteria`. -/
structure AttackGroupAdvancedCriterion where
  Hostnames : List String
  Names : List String
  Paths : List String
  Values : List String

/-- `AttackGroupAdvancedCriteria []struct{...}`. -/
abbrev AttackGroupAdvancedCriteria := List AttackGroupAdvancedCriterion

/-- The anonymous `namesValues` entry used by the advanced exceptions. -/
structure AttackGroupNamesValues where
  Names : List String
  Values : List String

/-- The anonymous entry of `AttackGroupSpecificHeaderCookieOrParamNameValAdvanced`. -/
structure AttackGroupSpecificHeaderCookieOrParamNameValAdvancedEntry where
  Criteria : Option AttackGroupAdvancedCriteria
  NamesValues : List AttackGroupNamesValues
  Selector : String
  ValueWildcard : Bool
  Wildcard : Bool

abbrev AttackGroupSpecificHeaderCookieOrParamNameValAdvanced :=
  List AttackGroupSpecificHeaderCookieOrParamNameValAdvancedEntry

/-- The anonymous entry of `AttackGroupSpecificHeaderCookieParamXMLOrJSONNamesAdvanced`. -/
structure AttackGroupSpecificHeaderCookieParamXMLOrJSONNamesAdvancedEntry where
  Criteria : Option AttackGroupAdvancedCriteria
  Names : List String
  Selector : String
  Wildcard : Bool

abbrev AttackGroupSpecificHeaderCookieParamXMLOrJSONNamesAdvanced :=
  List AttackGroupSpecificHeaderCookieParamXMLOrJSONNamesAdvancedEntry

/-- The anonymous entry of `AttackGroupHeaderCookieOrParamValuesAdvanced`. -/
structure AttackGroupHeaderCookieOrParamValuesAdvancedEntry where
  Criteria : Option AttackGroupAdvancedCriteria
  ValueWildcard : Bool
  Values : List String

abbrev AttackGroupHeaderCookieOrParamValuesAdvanced :=
  List AttackGroupHeaderCookieOrParamValuesAdvancedEntry

/-- The anonymous entry of `AttackGroupSpecificHeaderCookieParamXMLOrJSONNames`. -/
structure AttackGroupSpecificHeaderCookieParamXMLOrJSONNamesEntry where
  Names : List String
  Selector : String
  Wildcard : Bool

abbrev AttackGroupSpecificHeaderCookieParamXMLOrJSONNames :=
  List AttackGroupSpecificHeaderCookieParamXMLOrJSONNamesEntry

structure AttackGroupException where
  SpecificHeaderCookieParamXMLOrJSONNames :
    Option AttackGroupSpecificHeaderCookieParamXMLOrJSONNames

structure AttackGroupAdvancedExceptions where
  ConditionOperator : String
  Conditions : Option AttackGroupConditions
  HeaderCookieOrParamValues : Option AttackGroupHeaderCookieOrParamValuesAdvanced
  SpecificHeaderCookieOrParamNameValue :
    Option AttackGroupSpecificHeaderCookieOrParamNameValAdvanced
  SpecificHeaderCookieParamXMLOrJSONNames :
    Option AttackGroupSpecificHeaderCookieParamXMLOrJSONNamesAdvanced

structure AttackGroupConditionException where
  AdvancedExceptionsList : Option AttackGroupAdvancedExceptions
  Exception : Option AttackGroupException

structure GetAttackGroupsRequest where
  ConfigID : Int
  Version : Int
  PolicyID : String
  Group : String

/-- The anonymous entry of `GetAttackGroupsResponse.AttackGroups`. -/
structure AttackGroupEntry where
  Group : String
  Action : String
  ConditionException : Option AttackGroupConditionException

structure GetAttackGroupsResponse where
  AttackGroups : List AttackGroupEntry

structure GetAttackGroupRequest where
  ConfigID : Int
  Version : Int
  PolicyID : String
  Group : String

structure GetAttackGroupResponse where
  Action : String
  ConditionException : Option AttackGroupConditionException

structure UpdateAttackGroupRequest where
  ConfigID : Int
  Version : Int
  PolicyID : String
  Group : String
  Action : String
  JsonPayloadRaw : RawJson

structure UpdateAttackGroupResponse where
  Action : String
  ConditionException : Option AttackGroupConditionException

/-- `func (r GetAttackGroupResponse) IsEmptyConditionException() bool`. -/
def GetAttackGroupResponse.IsEmptyConditionException (r : GetAttackGroupResponse) : Bool :=
  r.ConditionException.isNone

/-- `func (v GetAttackGroupRequest) Validate() error`. -/
def GetAttackGroupRequest.Validate (v : GetAttackGroupRequest) : List String :=
  validationErrors [
    ("ConfigID", requiredInt v.ConfigID),
    ("Version", requiredInt v.Version),
    ("PolicyID", requiredString v.PolicyID)]

/-- `func (v GetAttackGroupsRequest) Validate() error`. -/
def GetAttackGroupsRequest.Validate (v : GetAttackGroupsRequest) : List String :=
  validationErrors [
    ("ConfigID", requiredInt v.ConfigID),
    ("Version", requiredInt v.Version),
    ("PolicyID", requiredString v.PolicyID)]

/-- `func (v UpdateAttackGroupRequest) Validate() error`. -/
def UpdateAttackGroupRequest.Validate (v : UpdateAttackGroupRequest) : List String :=
  validationErrors [
    ("ConfigID", requiredInt v.ConfigID),
    ("Version", requiredInt v.Version),
    ("PolicyID", requiredString v.PolicyID)]

/-! ## `reputation_profile.go`: request and response structures -/

/-- The anonymous `atomicConditions` entry of `ReputationProfileCondition`. -/
structure ReputationProfileAtomicCondition where
  CheckIps : Option RawJson
  ClassName : String
  Index : Int
  PositiveMatch : Option RawJson
  Value : List String
  Name : Option RawJson
  NameCase : Bool
  NameWildcard : Option RawJson
  ValueCase : Bool
  ValueWildcard : Option RawJson
  Host : List String

structure ReputationProfileCondition where
  AtomicConditions : List ReputationProfileAtomicCondition
  PositiveMatch : Option RawJson

/-- The anonymous entry of `GetReputationProfilesResponse.ReputationProfiles`. -/
structure ReputationProfileEntry where
  Condition : Option ReputationProfileCondition
  Context : String
  ContextReadable : String
  Enabled : Bool
  ID : Int
  Name : String
  SharedIPHandling : String
  Threshold : Int

structure GetReputationProfilesResponse where
  ReputationProfiles : List ReputationProfileEntry

/-- The anonymous `atomicConditions` entry of
`GetReputationProfileResponseCondition` (its `PositiveMatch` is a plain
`json.RawMessage`, not a pointer). -/
structure GetReputationProfileResponseAtomicCondition where
  CheckIps : Option RawJson
  ClassName : String
  Index : Int
  PositiveMatch : RawJson
  Value : List String
  Name : Option RawJson
  NameCase : Bool
  NameWildcard : Option RawJson
  ValueCase : Bool
  ValueWildcard : Option RawJson
  Host : List String

structure GetReputationProfileResponseCondition where
  AtomicConditions : List GetReputationProfileResponseAtomicCondition
  PositiveMatch : Option RawJson

structure GetReputationProfileResponse where
  Condition : Option GetReputationProfileResponseCondition
  Context : String
  ContextReadable : String
  Enabled : Bool
  ID : Int
  Name : String
  SharedIPHandling : String
  Threshold : Int

/-- The anonymous `atomicConditions` entry of `CreateReputationProfileResponse`
(this is the one place the `atomicConditionsName` decoder is attached to a
`name` field). -/
structure CreateReputationProfileResponseAtomicCondition where
  CheckIps : String
  ClassName : String
  Index : Int
  PositiveMatch : Bool
  Value : List String
  Name : atomicConditionsName
  NameCase : Bool
  NameWildcard : Bool
  ValueCase : Bool
  ValueWildcard : Bool
  Host : List String

/-- The anonymous `condition` member of `CreateReputationProfileResponse`. -/
structure CreateReputationProfileResponseCondition where
  AtomicConditions : List CreateReputationProfileResponseAtomicCondition
  PositiveMatch : Option RawJson

structure CreateReputationProfileResponse where
  ID : Int
  Name : String
  Context : String
  Description : String
  Threshold : Int
  SharedIPHandling : String
  Condition : CreateReputationProfileResponseCondition
  Enabled : Bool

/-- The anonymous `path` / `fileExtensions` members of the update/remove
reputation-profile responses. -/
structure ReputationProfilePathMatch where
  PositiveMatch : Bool
  Values : List String

/-- The anonymous `additionalMatchOptions` entry of the update/remove
reputation-profile responses. -/
structure ReputationProfileAdditionalMatchOption where
  PositiveMatch : Bool
  Type' : String
  Values : List String

/-- The anonymous `queryParameters` entry of the update/remove
reputation-profile responses. -/
structure ReputationProfileQueryParameter where
  Name : String
  Values : List String
  PositiveMatch : Bool
  ValueInRange : Bool

structure UpdateReputationProfileResponse where
  ID : Int
  PolicyID : Int
  ConfigID : Int
  ConfigVersion : Int
  MatchType : String
  Type' : String
  Name : String
  Description : String
  AverageThreshold : Int
  BurstThreshold : Int
  ClientIdentifier : String
  UseXForwardForHeaders : Bool
  RequestType : String
  SameActionOnIpv6 : Bool
  Path : ReputationProfilePathMatch
  PathMatchType : String
  PathURIPositiveMatch : Bool
  FileExtensions : ReputationProfilePathMatch
  Hostnames : List String
  AdditionalMatchOptions : List ReputationProfileAdditionalMatchOption
  QueryParameters : List ReputationProfileQueryParameter
  CreateDate : String
  UpdateDate : String
  Used : Bool

structure RemoveReputationProfileResponse where
  ID : Int
  PolicyID : Int
  ConfigID : Int
  ConfigVersion : Int
  MatchType : String
  Type' : String
  Name : String
  Description : String
  AverageThreshold : Int
  BurstThreshold : Int
  ClientIdentifier : String
  UseXForwardForHeaders : Bool
  RequestType : String
  SameActionOnIpv6 : Bool
  Path : ReputationProfilePathMatch
  PathMatchType : String
  PathURIPositiveMatch : Bool
  FileExtensions : ReputationProfilePathMatch
  Hostnames : List String
  AdditionalMatchOptions : List ReputationProfileAdditionalMatchOption
  QueryParameters : List ReputationProfileQueryParameter
  CreateDate : String
  UpdateDate : String
  Used : Bool

structure GetReputationProfilesRequest where
  ConfigID : Int
  ConfigVersion : Int
  ReputationProfileId : Int

structure GetReputationProfileRequest where
  ConfigID : Int
  ConfigVersion : Int
  ReputationProfileId : Int

structure CreateReputationProfileRequest where
  ConfigID : Int
  ConfigVersion : Int
  JsonPayloadRaw : RawJson

structure UpdateReputationProfileRequest where
  ConfigID : Int
  ConfigVersion : Int
  ReputationProfileId : Int
  JsonPayloadRaw : RawJson

structure RemoveReputationProfileRequest where
  ConfigID : Int
  ConfigVersion : Int
  ReputationProfileId : Int

/-- `func (v GetReputationProfileRequest) Validate() error`.  Note the
source keys the `ReputationProfileId` rule under `"RatePolicyID"`. -/
def GetReputationProfileRequest.Validate (v : GetReputationProfileRequest) : List String :=
  validationErrors [
    ("ConfigID", requiredInt v.ConfigID),
    ("ConfigVersion", requiredInt v.ConfigVersion),
    ("RatePolicyID", requiredInt v.ReputationProfileId)]

/-- `func (v GetReputationProfilesRequest) Validate() error`. -/
def GetReputationProfilesRequest.Validate (v : GetReputationProfilesRequest) : List String :=
  validationErrors [
    ("ConfigID", requiredInt v.ConfigID),
    ("ConfigVersion", requiredInt v.ConfigVersion)]

/-- `func (v CreateReputationProfileRequest) Validate() error`. -/
def CreateReputationProfileRequest.Validate (v : CreateReputationProfileRequest) : List String :=
  validationErrors [
    ("ConfigID", requiredInt v.ConfigID),
    ("ConfigVersion", requiredInt v.ConfigVersion)]

/-- `func (v UpdateReputationProfileRequest) Validate() error`. -/
def UpdateReputationProfileRequest.Validate (v : UpdateReputationProfileRequest) : List String :=
  validationErrors [
    ("ConfigID", requiredInt v.ConfigID),
    ("ConfigVersion", requiredInt v.ConfigVersion),
    ("ReputationProfileId", requiredInt v.ReputationProfileId)]

/-- `func (v RemoveReputationProfileRequest) Validate() error`. -/
def RemoveReputationProfileRequest.Validate (v : RemoveReputationProfileRequest) : List String :=
  validationErrors [
    ("ConfigID", requiredInt v.ConfigID),
    ("ConfigVersion", requiredInt v.ConfigVersion),
    ("ReputationProfileId", requiredInt v.ReputationProfileId)]

/-! ## `api_hostname_coverage_overlapping.go`: structures -/

structure GetApiHostnameCoverageOverlappingRequest where
  ConfigID : Int
  Version : Int
  Hostname : String

/-- The anonymous entry of the overlapping-coverage response list. -/
structure HostnameCoverageOverlap where
  ConfigID : Int
  ConfigName : String
  ConfigVersion : Int
  ContractID : String
  ContractName : String
  VersionTags : List String

structure GetApiHostnameCoverageOverlappingResponse where
  OverLappingList : List HostnameCoverageOverlap

/-- `func (v GetApiHostnameCoverageOverlappingRequest) Validate() error`. -/
def GetApiHostnameCoverageOverlappingRequest.Validate
    (v : GetApiHostnameCoverageOverlappingRequest) : List String :=
  validationErrors [
    ("ConfigID", requiredInt v.ConfigID),
    ("Version", requiredInt v.Version)]

/-! ## `configuration_clone.go`: structures -/

/-- The anonymous `production` member of the configuration-clone structures. -/
structure ProductionStatus where
  Status : String
  Time : GoTime

/-- The anonymous `staging` member of the configuration-clone structures. -/
structure StagingStatus where
  Status : String

structure GetConfigurationCloneRequest where
  ConfigID : Int
  ConfigName : String
  Version : Int
  VersionNotes : String
  CreateDate : GoTime
  CreatedBy : String
  BasedOn : Int
  Production : ProductionStatus
  Staging : StagingStatus

structure CreateConfigurationCloneResponse where
  ConfigID : Int
  Version : Int
  Description : String
  Name : String

structure GetConfigurationCloneResponse where
  ConfigID : Int
  ConfigName : String
  Version : Int
  VersionNotes : String
  CreateDate : GoTime
  CreatedBy : String
  BasedOn : Int
  Production : ProductionStatus
  Staging : StagingStatus

/-- The anonymous `createFrom` member of `CreateConfigurationCloneRequest`. -/
structure CreateFromRef where
  ConfigID : Int
  Version : Int

structure CreateConfigurationCloneRequest where
  Name : String
  Description : String
  ContractID : String
  GroupID : Int
  Hostnames : List String
  CreateFrom : CreateFromRef

/-- `func (v GetConfigurationCloneRequest) Validate() error`. -/
def GetConfigurationCloneRequest.Validate (v : GetConfigurationCloneRequest) : List String :=
  validationErrors [
    ("ConfigID", requiredInt v.ConfigID),
    ("Version", requiredInt v.Version)]

/-- `func (v CreateConfigurationCloneRequest) Validate() error`. -/
def CreateConfigurationCloneRequest.Validate (v : CreateConfigurationCloneRequest) : List String :=
  validationErrors [
    ("CreateFromConfigID", requiredInt v.CreateFrom.ConfigID)]

/-! ## `version_notes.go`: structures -/

structure GetVersionNotesRequest where
  ConfigID : Int
  Version : Int

structure GetVersionNotesResponse where
  Notes : String

structure UpdateVersionNotesRequest where
  ConfigID : Int
  Version : Int
  Notes : String

structure UpdateVersionNotesResponse where
  Notes : String

/-- `func (v GetVersionNotesRequest) Validate() error`. -/
def GetVersionNotesRequest.Validate (v : GetVersionNotesRequest) : List String :=
  validationErrors [
    ("ConfigID", requiredInt v.ConfigID),
    ("Version", requiredInt v.Version)]

/-- `func (v UpdateVersionNotesRequest) Validate() error`. -/
def UpdateVersionNotesRequest.Validate (v : UpdateVersionNotesRequest) : List String :=
  validationErrors [
    ("ConfigID", requiredInt v.ConfigID),
    ("Version", requiredInt v.Version)]

/-! ## The shared transport (`p.Exec`) and the operation results

`p.Exec(req, &rval, optionalBody)` signs the request, performs the HTTP
exchange and, on success, decodes the JSON body into `rval`.  It is an
external collaborator; every operation below takes it as a function
`exec` from the issued call to an outcome.  The outcome is either a
transport fault (modelled by its message) or a status code together with
the value `Exec` decoded into the destination struct.  Operations return
the list of calls handed to `exec` next to the Go `(*Response, error)`
pair, which is modelled by `Except`: `.error` is the `nil, err` return,
`.ok` the `&rval, nil` return. -/

/-- The HTTP method constants used by the package. -/
inductive Method where
  | get
  | post
  | put
  | delete
  deriving Repr, DecidableEq

/-- The third argument the operations hand to `p.Exec`: either a raw
`json.RawMessage` payload forwarded byte for byte, or the request struct
itself (which the transport will marshal). -/
inductive ReqBody where
  | rawPayload (bytes : RawJson)
  | updateReputationAnalysisParams (p : UpdateReputationAnalysisRequest)
  | removeReputationAnalysisParams (p : RemoveReputationAnalysisRequest)
  | updateAttackGroupParams (p : UpdateAttackGroupRequest)
  | updateVersionNotesParams (p : UpdateVersionNotesRequest)
  | createConfigurationCloneParams (p : CreateConfigurationCloneRequest)

/-- One call handed to `p.Exec`: the request method and URL built by the
operation, and the optional request body. -/
structure ExecCall where
  method : Method
  url : String
  body : Option ReqBody

/-- What `p.Exec` produced: a transport-level fault, or a status code and
the decoded response body. -/
inductive ExecOutcome (ρ : Type) where
  | err (e : String)
  | resp (status : Int) (body : ρ)

/-- The error a failed operation returns to its caller. -/
inductive AppsecErr where
  | structValidation (fields : List String)
    -- fmt.Errorf("%w: %s", ErrStructValidation, err)
  | requestFailed (msg : String) (wrapped : Option String)
    -- fmt.Errorf("<msg>: %w", err); `wrapped` is the error given to %w
    -- (`none` when the wrapped variable is nil)
  | apiErr (status : Int)
    -- p.Error(resp): the structured API error for the response

/-- The modelled result of one operation: the calls that reached `Exec`,
and the Go `(*Response, error)` pair. -/
abbrev OpResult (ρ : Type) := List ExecCall × Except AppsecErr ρ

/-! ## `custom_deny.go`: operations -/

/-- The URL `GetCustomDeny` formats. -/
def getCustomDenyURL (params : GetCustomDenyRequest) : String :=
  "/appsec/v1/configs/" ++ toString params.ConfigID ++
    "/versions/" ++ toString params.Version ++
    "/custom-deny/" ++ params.ID

/-- `func (p *appsec) GetCustomDeny(ctx, params)`. -/
def getCustomDeny (exec : ExecCall → ExecOutcome GetCustomDenyResponse)
    (params : GetCustomDenyRequest) : OpResult GetCustomDenyResponse :=
  if params.Validate ≠ [] then
    ([], .error (.structValidation params.Validate))
  else
    let call : ExecCall := ⟨.get, getCustomDenyURL params, none⟩
    match exec call with
    | .err e => ([call], .error (.requestFailed "GetCustomDeny request failed" (some e)))
    | .resp status rval =>
      if status ≠ 200 then ([call], .error (.apiErr status))
      else ([call], .ok rval)

/-- The URL `GetCustomDenyList` formats. -/
def getCustomDenyListURL (params : GetCustomDenyListRequest) : String :=
  "/appsec/v1/configs/" ++ toString params.ConfigID ++
    "/versions/" ++ toString params.Version ++
    "/custom-deny"

/-- `func (p *appsec) GetCustomDenyList(ctx, params)`: fetches the full
list, then — when `params.ID` is non-empty — keeps only the entries whose
`ID` equals it, by appending each match to a fresh response. -/
def getCustomDenyList (exec : ExecCall → ExecOutcome GetCustomDenyListResponse)
    (params : GetCustomDenyListRequest) : OpResult GetCustomDenyListResponse :=
  if params.Validate ≠ [] then
    ([], .error (.structValidation params.Validate))
  else
    let call : ExecCall := ⟨.get, getCustomDenyListURL params, none⟩
    match exec call with
    | .err e => ([call], .error (.requestFailed "GetCustomDenyList request failed" (some e)))
    | .resp status rval =>
      if status ≠ 200 then ([call], .error (.apiErr status))
      else if params.ID ≠ "" then
        ([call], .ok ⟨rval.CustomDenyList.foldl
          (fun acc val => if val.ID == params.ID then acc ++ [val] else acc) []⟩)
      else ([call], .ok rval)

/-- The URL `UpdateCustomDeny` formats. -/
def updateCustomDenyURL (params : UpdateCustomDenyRequest) : String :=
  "/appsec/v1/configs/" ++ toString params.ConfigID ++
    "/versions/" ++ toString params.Version ++
    "/custom-deny/" ++ params.ID

/-- `func (p *appsec) UpdateCustomDeny(ctx, params)`: a PUT whose body is
the caller-supplied `params.JsonPayloadRaw`, handed to `Exec` unchanged. -/
def updateCustomDeny (exec : ExecCall → ExecOutcome UpdateCustomDenyResponse)
    (params : UpdateCustomDenyRequest) : OpResult UpdateCustomDenyResponse :=
  if params.Validate ≠ [] then
    ([], .error (.structValidation params.Validate))
  else
    let call : ExecCall := ⟨.put, updateCustomDenyURL params, some (.rawPayload params.JsonPayloadRaw)⟩
    match exec call with
    | .err e => ([call], .error (.requestFailed "UpdateCustomDeny request failed" (some e)))
    | .resp status rval =>
      if status ≠ 200 ∧ status ≠ 201 then ([call], .error (.apiErr status))
      else ([call], .ok rval)

/-- The URL `CreateCustomDeny` formats. -/
def createCustomDenyURL (params : CreateCustomDenyRequest) : String :=
  "/appsec/v1/configs/" ++ toString params.ConfigID ++
    "/versions/" ++ toString params.Version ++
    "/custom-deny"

/-- `func (p *appsec) CreateCustomDeny(ctx, params)`. -/
def createCustomDeny (exec : ExecCall → ExecOutcome CreateCustomDenyResponse)
    (params : CreateCustomDenyRequest) : OpResult CreateCustomDenyResponse :=
  if params.Validate ≠ [] then
    ([], .error (.structValidation params.Validate))
  else
    let call : ExecCall := ⟨.post, createCustomDenyURL params, some (.rawPayload params.JsonPayloadRaw)⟩
    match exec call with
    | .err e => ([call], .error (.requestFailed "CreateCustomDeny request failed" (some e)))
    | .resp status rval =>
      if status ≠ 200 ∧ status ≠ 201 then ([call], .error (.apiErr status))
      else ([call], .ok rval)

/-- The URL `RemoveCustomDeny` formats (the `url.Parse`/`String` round
trip it performs is the identity on this path-only URL). -/
def removeCustomDenyURL (params : RemoveCustomDenyRequest) : String :=
  "/appsec/v1/configs/" ++ toString params.ConfigID ++
    "/versions/" ++ toString params.Version ++
    "/custom-deny/" ++ params.ID

/-- `func (p *appsec) RemoveCustomDeny(ctx, params)`. -/
def removeCustomDeny (exec : ExecCall → ExecOutcome RemoveCustomDenyResponse)
    (params : RemoveCustomDenyRequest) : OpResult RemoveCustomDenyResponse :=
  if params.Validate ≠ [] then
    ([], .error (.structValidation params.Validate))
  else
    let call : ExecCall := ⟨.delete, removeCustomDenyURL params, none⟩
    match exec call with
    | .err e => ([call], .error (.requestFailed "RemoveCustomDeny request failed" (some e)))
    | .resp status rval =>
      if status ≠ 204 ∧ status ≠ 200 then ([call], .error (.apiErr status))
      else ([call], .ok rval)

/-! ## `match_target.go`: operations -/

/-- The URL `GetMatchTarget` formats. -/
def getMatchTargetURL (params : GetMatchTargetRequest) : String :=
  "/appsec/v1/configs/" ++ toString params.ConfigID ++
    "/versions/" ++ toString params.ConfigVersion ++
    "/match-targets/" ++ toString params.TargetID ++
    "?includeChildObjectName=true"

/-- `func (p *appsec) GetMatchTarget(ctx, params)`. -/
def getMatchTarget (exec : ExecCall → ExecOutcome GetMatchTargetResponse)
    (params : GetMatchTargetRequest) : OpResult GetMatchTargetResponse :=
  if params.Validate ≠ [] then
    ([], .error (.structValidation params.Validate))
  else
    let call : ExecCall := ⟨.get, getMatchTargetURL params, none⟩
    match exec call with
    | .err e => ([call], .error (.requestFailed "GetMatchTarget request failed" (some e)))
    | .resp status rval =>
      if status ≠ 200 then ([call], .error (.apiErr status))
      else ([call], .ok rval)

/-- The URL `GetMatchTargets` formats. -/
def getMatchTargetsURL (params : GetMatchTargetsRequest) : String :=
  "/appsec/v1/configs/" ++ toString params.ConfigID ++
    "/versions/" ++ toString params.ConfigVersion ++
    "/match-targets"

/-- `func (p *appsec) GetMatchTargets(ctx, params)`: when
`params.TargetID` is non-zero, both target lists are filtered to the
entries with that target ID (website targets in one loop, API targets in
the other), each appended into a fresh response. -/
def getMatchTargets (exec : ExecCall → ExecOutcome GetMatchTargetsResponse)
    (params : GetMatchTargetsRequest) : OpResult GetMatchTargetsResponse :=
  if params.Validate ≠ [] then
    ([], .error (.structValidation params.Validate))
  else
    let call : ExecCall := ⟨.get, getMatchTargetsURL params, none⟩
    match exec call with
    | .err e => ([call], .error (.requestFailed "GetMatchTargets request failed" (some e)))
    | .resp status rval =>
      if status ≠ 200 then ([call], .error (.apiErr status))
      else if params.TargetID ≠ 0 then
        ([call], .ok ⟨⟨rval.MatchTargets.APITargets.foldl
            (fun acc val => if val.TargetID == params.TargetID then acc ++ [val] else acc) [],
          rval.MatchTargets.WebsiteTargets.foldl
            (fun acc val => if val.TargetID == params.TargetID then acc ++ [val] else acc) []⟩⟩)
      else ([call], .ok rval)

/-- The URL `UpdateMatchTarget` formats. -/
def updateMatchTargetURL (params : UpdateMatchTargetRequest) : String :=
  "/appsec/v1/configs/" ++ toString params.ConfigID ++
    "/versions/" ++ toString params.ConfigVersion ++
    "/match-targets/" ++ toString params.TargetID

/-- `func (p *appsec) UpdateMatchTarget(ctx, params)`. -/
def updateMatchTarget (exec : ExecCall → ExecOutcome UpdateMatchTargetResponse)
    (params : UpdateMatchTargetRequest) : OpResult UpdateMatchTargetResponse :=
  if params.Validate ≠ [] then
    ([], .error (.structValidation params.Validate))
  else
    let call : ExecCall := ⟨.put, updateMatchTargetURL params, some (.rawPayload params.JsonPayloadRaw)⟩
    match exec call with
    | .err e => ([call], .error (.requestFailed "UpdateMatchTarget request failed" (some e)))
    | .resp status rval =>
      if status ≠ 200 ∧ status ≠ 201 then ([call], .error (.apiErr status))
      else ([call], .ok rval)

/-- The URL `CreateMatchTarget` formats. -/
def createMatchTargetURL (params : CreateMatchTargetRequest) : String :=
  "/appsec/v1/configs/" ++ toString params.ConfigID ++
    "/versions/" ++ toString params.ConfigVersion ++
    "/match-targets"

/-- `func (p *appsec) CreateMatchTarget(ctx, params)`. -/
def createMatchTarget (exec : ExecCall → ExecOutcome CreateMatchTargetResponse)
    (params : CreateMatchTargetRequest) : OpResult CreateMatchTargetResponse :=
  if params.Validate ≠ [] then
    ([], .error (.structValidation params.Validate))
  else
    let call : ExecCall := ⟨.post, createMatchTargetURL params, some (.rawPayload params.JsonPayloadRaw)⟩
    match exec call with
    | .err e => ([call], .error (.requestFailed "CreateMatchTarget request failed" (some e)))
    | .resp status rval =>
      if status ≠ 201 ∧ status ≠ 200 then ([call], .error (.apiErr status))
      else ([call], .ok rval)

/-- The URL `RemoveMatchTarget` formats. -/
def removeMatchTargetURL (params : RemoveMatchTargetRequest) : String :=
  "/appsec/v1/configs/" ++ toString params.ConfigID ++
    "/versions/" ++ toString params.ConfigVersion ++
    "/match-targets/" ++ toString params.TargetID

/-- `func (p *appsec) RemoveMatchTarget(ctx, params)`.  Two source
particulars are preserved: `Exec` is given `nil` as decode destination
and the untouched zero `result` is returned on success; and the Exec
error branch tests `errd` but wraps the *other* variable `err` — the
nil error of request construction — so the transport fault is lost
(`wrapped` is `none`). -/
def removeMatchTarget (exec : ExecCall → ExecOutcome Unit)
    (params : RemoveMatchTargetRequest) : OpResult RemoveMatchTargetResponse :=
  if params.Validate ≠ [] then
    ([], .error (.structValidation params.Validate))
  else
    let call : ExecCall := ⟨.delete, removeMatchTargetURL params, none⟩
    match exec call with
    | .err _ => ([call], .error (.requestFailed "RemoveMatchTarget request failed" none))
    | .resp status _ =>
      if status ≠ 204 ∧ status ≠ 200 then ([call], .error (.apiErr status))
      else ([call], .ok RemoveMatchTargetResponse.zero)

/-! ## `reputation_analysis.go`: operations -/

/-- The URL `GetReputationAnalysis` formats. -/
def getReputationAnalysisURL (params : GetReputationAnalysisRequest) : String :=
  "/appsec/v1/configs/" ++ toString params.ConfigID ++
    "/versions/" ++ toString params.Version ++
    "/security-policies/" ++ params.PolicyID ++
    "/reputation-analysis"

/-- `func (p *appsec) GetReputationAnalysis(ctx, params)`. -/
def getReputationAnalysis (exec : ExecCall → ExecOutcome GetReputationAnalysisResponse)
    (params : GetReputationAnalysisRequest) : OpResult GetReputationAnalysisResponse :=
  if params.Validate ≠ [] then
    ([], .error (.structValidation params.Validate))
  else
    let call : ExecCall := ⟨.get, getReputationAnalysisURL params, none⟩
    match exec call with
    | .err e => ([call], .error (.requestFailed "GetReputationAnalysis request failed" (some e)))
    | .resp status rval =>
      if status ≠ 200 then ([call], .error (.apiErr status))
      else ([call], .ok rval)

/-- The URL `UpdateReputationAnalysis` formats. -/
def updateReputationAnalysisURL (params : UpdateReputationAnalysisRequest) : String :=
  "/appsec/v1/configs/" ++ toString params.ConfigID ++
    "/versions/" ++ toString params.Version ++
    "/security-policies/" ++ params.PolicyID ++
    "/reputation-analysis"

/-- `func (p *appsec) UpdateReputationAnalysis(ctx, params)`: a PUT whose
body is the request struct itself (`p.Exec(req, &rval, params)`). -/
def updateReputationAnalysis (exec : ExecCall → ExecOutcome UpdateReputationAnalysisResponse)
    (params : UpdateReputationAnalysisRequest) : OpResult UpdateReputationAnalysisResponse :=
  if params.Validate ≠ [] then
    ([], .error (.structValidation params.Validate))
  else
    let call : ExecCall :=
      ⟨.put, updateReputationAnalysisURL params, some (.updateReputationAnalysisParams params)⟩
    match exec call with
    | .err e => ([call], .error (.requestFailed "UpdateReputationAnalysis request failed" (some e)))
    | .resp status rval =>
      if status ≠ 200 ∧ status ≠ 201 then ([call], .error (.apiErr status))
      else ([call], .ok rval)

/-- The URL `RemoveReputationAnalysis` formats. -/
def removeReputationAnalysisURL (params : RemoveReputationAnalysisRequest) : String :=
  "/appsec/v1/configs/" ++ toString params.ConfigID ++
    "/versions/" ++ toString params.Version ++
    "/security-policies/" ++ params.PolicyID ++
    "/reputation-analysis"

/-- `func (p *appsec) RemoveReputationAnalysis(ctx, params)`: unlike every
other operation in the package, this one never calls `params.Validate()`;
it builds the PUT and hands it to `Exec` for any request value. -/
def removeReputationAnalysis (exec : ExecCall → ExecOutcome RemoveReputationAnalysisResponse)
    (params : RemoveReputationAnalysisRequest) : OpResult RemoveReputationAnalysisResponse :=
  let call : ExecCall :=
    ⟨.put, removeReputationAnalysisURL params, some (.removeReputationAnalysisParams params)⟩
  match exec call with
  | .err e => ([call], .error (.requestFailed "RemoveReputationAnalysis request failed" (some e)))
  | .resp status rval =>
    if status ≠ 200 ∧ status ≠ 201 then ([call], .error (.apiErr status))
    else ([call], .ok rval)

/-! ## `attack_group.go`: operations -/

/-- The URL `GetAttackGroup` formats. -/
def getAttackGroupURL (params : GetAttackGroupRequest) : String :=
  "/appsec/v1/configs/" ++ toString params.ConfigID ++
    "/versions/" ++ toString params.Version ++
    "/security-policies/" ++ params.PolicyID ++
    "/attack-groups/" ++ params.Group ++
    "?includeConditionException=true"

/-- `func (p *appsec) GetAttackGroup(ctx, params)`. -/
def getAttackGroup (exec : ExecCall → ExecOutcome GetAttackGroupResponse)
    (params : GetAttackGroupRequest) : OpResult GetAttackGroupResponse :=
  if params.Validate ≠ [] then
    ([], .error (.structValidation params.Validate))
  else
    let call : ExecCall := ⟨.get, getAttackGroupURL params, none⟩
    match exec call with
    | .err e => ([call], .error (.requestFailed "GetAttackGroup request failed" (some e)))
    | .resp status rval =>
      if status ≠ 200 then ([call], .error (.apiErr status))
      else ([call], .ok rval)

/-- The URL `GetAttackGroups` formats. -/
def getAttackGroupsURL (params : GetAttackGroupsRequest) : String :=
  "/appsec/v1/configs/" ++ toString params.ConfigID ++
    "/versions/" ++ toString params.Version ++
    "/security-policies/" ++ params.PolicyID ++
    "/attack-groups?includeConditionException=true"

/-- `func (p *appsec) GetAttackGroups(ctx, params)`: when `params.Group`
is non-empty, keeps only the entries whose `Group` equals it, appending
each match (in list order) to a fresh response. -/
def getAttackGroups (exec : ExecCall → ExecOutcome GetAttackGroupsResponse)
    (params : GetAttackGroupsRequest) : OpResult GetAttackGroupsResponse :=
  if params.Validate ≠ [] then
    ([], .error (.structValidation params.Validate))
  else
    let call : ExecCall := ⟨.get, getAttackGroupsURL params, none⟩
    match exec call with
    | .err e => ([call], .error (.requestFailed "GetAttackGroups request failed" (some e)))
    | .resp status rval =>
      if status ≠ 200 then ([call], .error (.apiErr status))
      else if params.Group ≠ "" then
        ([call], .ok ⟨rval.AttackGroups.foldl
          (fun acc val => if val.Group == params.Group then acc ++ [val] else acc) []⟩)
      else ([call], .ok rval)

/-- The URL `UpdateAttackGroup` formats. -/
def updateAttackGroupURL (params : UpdateAttackGroupRequest) : String :=
  "/appsec/v1/configs/" ++ toString params.ConfigID ++
    "/versions/" ++ toString params.Version ++
    "/security-policies/" ++ params.PolicyID ++
    "/attack-groups/" ++ params.Group ++
    "/action-condition-exception"

/-- `func (p *appsec) UpdateAttackGroup(ctx, params)`: a PUT whose body is
the request struct itself. -/
def updateAttackGroup (exec : ExecCall → ExecOutcome UpdateAttackGroupResponse)
    (params : UpdateAttackGroupRequest) : OpResult UpdateAttackGroupResponse :=
  if params.Validate ≠ [] then
    ([], .error (.structValidation params.Validate))
  else
    let call : ExecCall :=
      ⟨.put, updateAttackGroupURL params, some (.updateAttackGroupParams params)⟩
    match exec call with
    | .err e => ([call], .error (.requestFailed "UpdateAttackGroup request failed" (some e)))
    | .resp status rval =>
      if status ≠ 200 ∧ status ≠ 201 then ([call], .error (.apiErr status))
      else ([call], .ok rval)

/-! ## `reputation_profile.go`: operations -/

/-- The URL `GetReputationProfile` formats. -/
def getReputationProfileURL (params : GetReputationProfileRequest) : String :=
  "/appsec/v1/configs/" ++ toString params.ConfigID ++
    "/versions/" ++ toString params.ConfigVersion ++
    "/reputation-profiles/" ++ toString params.ReputationProfileId

/-- `func (p *appsec) GetReputationProfile(ctx, params)`. -/
def getReputationProfile (exec : ExecCall → ExecOutcome GetReputationProfileResponse)
    (params : GetReputationProfileRequest) : OpResult GetReputationProfileResponse :=
  if params.Validate ≠ [] then
    ([], .error (.structValidation params.Validate))
  else
    let call : ExecCall := ⟨.get, getReputationProfileURL params, none⟩
    match exec call with
    | .err e => ([call], .error (.requestFailed "getproperties request failed" (some e)))
    | .resp status rval =>
      if status ≠ 200 then ([call], .error (.apiErr status))
      else ([call], .ok rval)

/-- The URL `GetReputationProfiles` formats. -/
def getReputationProfilesURL (params : GetReputationProfilesRequest) : String :=
  "/appsec/v1/configs/" ++ toString params.ConfigID ++
    "/versions/" ++ toString params.ConfigVersion ++
    "/reputation-profiles"

/-- `func (p *appsec) GetReputationProfiles(ctx, params)`: when
`params.ReputationProfileId` is non-zero, keeps only the entries whose
`ID` equals it, appending each match to a fresh response. -/
def getReputationProfiles (exec : ExecCall → ExecOutcome GetReputationProfilesResponse)
    (params : GetReputationProfilesRequest) : OpResult GetReputationProfilesResponse :=
  if params.Validate ≠ [] then
    ([], .error (.structValidation params.Validate))
  else
    let call : ExecCall := ⟨.get, getReputationProfilesURL params, none⟩
    match exec call with
    | .err e => ([call], .error (.requestFailed "getreputationprofiles request failed" (some e)))
    | .resp status rval =>
      if status ≠ 200 then ([call], .error (.apiErr status))
      else if params.ReputationProfileId ≠ 0 then
        ([call], .ok ⟨rval.ReputationProfiles.foldl
          (fun acc val => if val.ID == params.ReputationProfileId then acc ++ [val] else acc) []⟩)
      else ([call], .ok rval)

/-- The URL `UpdateReputationProfile` formats. -/
def updateReputationProfileURL (params : UpdateReputationProfileRequest) : String :=
  "/appsec/v1/configs/" ++ toString params.ConfigID ++
    "/versions/" ++ toString params.ConfigVersion ++
    "/reputation-profiles/" ++ toString params.ReputationProfileId

/-- `func (p *appsec) UpdateReputationProfile(ctx, params)`: a PUT whose
body is `params.JsonPayloadRaw`. -/
def updateReputationProfile (exec : ExecCall → ExecOutcome UpdateReputationProfileResponse)
    (params : UpdateReputationProfileRequest) : OpResult UpdateReputationProfileResponse :=
  if params.Validate ≠ [] then
    ([], .error (.structValidation params.Validate))
  else
    let call : ExecCall :=
      ⟨.put, updateReputationProfileURL params, some (.rawPayload params.JsonPayloadRaw)⟩
    match exec call with
    | .err e => ([call], .error (.requestFailed "create ReputationProfile request failed" (some e)))
    | .resp status rval =>
      if status ≠ 200 ∧ status ≠ 201 then ([call], .error (.apiErr status))
      else ([call], .ok rval)

/-- The URL `CreateReputationProfile` formats. -/
def createReputationProfileURL (params : CreateReputationProfileRequest) : String :=
  "/appsec/v1/configs/" ++ toString params.ConfigID ++
    "/versions/" ++ toString params.ConfigVersion ++
    "/reputation-profiles"

/-- `func (p *appsec) CreateReputationProfile(ctx, params)`: a POST whose
body is `params.JsonPayloadRaw`. -/
def createReputationProfile (exec : ExecCall → ExecOutcome CreateReputationProfileResponse)
    (params : CreateReputationProfileRequest) : OpResult CreateReputationProfileResponse :=
  if params.Validate ≠ [] then
    ([], .error (.structValidation params.Validate))
  else
    let call : ExecCall :=
      ⟨.post, createReputationProfileURL params, some (.rawPayload params.JsonPayloadRaw)⟩
    match exec call with
    | .err e => ([call], .error (.requestFailed "create reputationprofilerequest failed" (some e)))
    | .resp status rval =>
      if status ≠ 200 ∧ status ≠ 201 then ([call], .error (.apiErr status))
      else ([call], .ok rval)

/-- The URL `RemoveReputationProfile` formats (again a path-only URL on
which the `url.Parse`/`String` round trip is the identity). -/
def removeReputationProfileURL (params : RemoveReputationProfileRequest) : String :=
  "/appsec/v1/configs/" ++ toString params.ConfigID ++
    "/versions/" ++ toString params.ConfigVersion ++
    "/reputation-profiles/" ++ toString params.ReputationProfileId

/-- `func (p *appsec) RemoveReputationProfile(ctx, params)`. -/
def removeReputationProfile (exec : ExecCall → ExecOutcome RemoveReputationProfileResponse)
    (params : RemoveReputationProfileRequest) : OpResult RemoveReputationProfileResponse :=
  if params.Validate ≠ [] then
    ([], .error (.structValidation params.Validate))
  else
    let call : ExecCall := ⟨.delete, removeReputationProfileURL params, none⟩
    match exec call with
    | .err e => ([call], .error (.requestFailed "delreputationprofile request failed" (some e)))
    | .resp status rval =>
      if status ≠ 204 ∧ status ≠ 200 then ([call], .error (.apiErr status))
      else ([call], .ok rval)

/-! ## `api_hostname_coverage_overlapping.go`: operation -/

/-- The URL `GetApiHostnameCoverageOverlapping` formats: the
`hostname` query parameter is part of the format string, so it is
appended for every request, `params.Hostname` empty or not. -/
def getApiHostnameCoverageOverlappingURL
    (params : GetApiHostnameCoverageOverlappingRequest) : String :=
  "/appsec/v1/configs/" ++ toString params.ConfigID ++
    "/versions/" ++ toString params.Version ++
    "/hostname-coverage/overlapping?hostname=" ++ params.Hostname

/-- `func (p *appsec) GetApiHostnameCoverageOverlapping(ctx, params)`. -/
def getApiHostnameCoverageOverlapping
    (exec : ExecCall → ExecOutcome GetApiHostnameCoverageOverlappingResponse)
    (params : GetApiHostnameCoverageOverlappingRequest) :
    OpResult GetApiHostnameCoverageOverlappingResponse :=
  if params.Validate ≠ [] then
    ([], .error (.structValidation params.Validate))
  else
    let call : ExecCall := ⟨.get, getApiHostnameCoverageOverlappingURL params, none⟩
    match exec call with
    | .err e =>
      ([call], .error (.requestFailed "GetApiHostnameCoverageOverlapping request failed" (some e)))
    | .resp status rval =>
      if status ≠ 200 then ([call], .error (.apiErr status))
      else ([call], .ok rval)

/-! ## `configuration_clone.go`: operations -/

/-- The URL `GetConfigurationClone` formats. -/
def getConfigurationCloneURL (params : GetConfigurationCloneRequest) : String :=
  "/appsec/v1/configs/" ++ toString params.ConfigID ++
    "/versions/" ++ toString params.Version

/-- `func (p *appsec) GetConfigurationClone(ctx, params)`. -/
def getConfigurationClone (exec : ExecCall → ExecOutcome GetConfigurationCloneResponse)
    (params : GetConfigurationCloneRequest) : OpResult GetConfigurationCloneResponse :=
  if params.Validate ≠ [] then
    ([], .error (.structValidation params.Validate))
  else
    let call : ExecCall := ⟨.get, getConfigurationCloneURL params, none⟩
    match exec call with
    | .err e => ([call], .error (.requestFailed "getproperties request failed" (some e)))
    | .resp status rval =>
      if status ≠ 200 then ([call], .error (.apiErr status))
      else ([call], .ok rval)

/-- The URL `CreateConfigurationClone` uses (a constant: no path
parameters are formatted in). -/
def createConfigurationCloneURL : String :=
  "/appsec/v1/configs/"

/-- `func (p *appsec) CreateConfigurationClone(ctx, params)`: a POST whose
body is the request struct itself. -/
def createConfigurationClone (exec : ExecCall → ExecOutcome CreateConfigurationCloneResponse)
    (params : CreateConfigurationCloneRequest) : OpResult CreateConfigurationCloneResponse :=
  if params.Validate ≠ [] then
    ([], .error (.structValidation params.Validate))
  else
    let call : ExecCall :=
      ⟨.post, createConfigurationCloneURL, some (.createConfigurationCloneParams params)⟩
    match exec call with
    | .err e => ([call], .error (.requestFailed "create configurationclonerequest failed" (some e)))
    | .resp status rval =>
      if status ≠ 200 ∧ status ≠ 201 then ([call], .error (.apiErr status))
      else ([call], .ok rval)

/-! ## `version_notes.go`: operations -/

/-- The URL `GetVersionNotes` formats. -/
def getVersionNotesURL (params : GetVersionNotesRequest) : String :=
  "/appsec/v1/configs/" ++ toString params.ConfigID ++
    "/versions/" ++ toString params.Version ++
    "/version-notes"

/-- `func (p *appsec) GetVersionNotes(ctx, params)`. -/
def getVersionNotes (exec : ExecCall → ExecOutcome GetVersionNotesResponse)
    (params : GetVersionNotesRequest) : OpResult GetVersionNotesResponse :=
  if params.Validate ≠ [] then
    ([], .error (.structValidation params.Validate))
  else
    let call : ExecCall := ⟨.get, getVersionNotesURL params, none⟩
    match exec call with
    | .err e => ([call], .error (.requestFailed "GetVersionNotes request failed" (some e)))
    | .resp status rval =>
      if status ≠ 200 then ([call], .error (.apiErr status))
      else ([call], .ok rval)

/-- The URL `UpdateVersionNotes` formats. -/
def updateVersionNotesURL (params : UpdateVersionNotesRequest) : String :=
  "/appsec/v1/configs/" ++ toString params.ConfigID ++
    "/versions/" ++ toString params.Version ++
    "/version-notes"

/-- `func (p *appsec) UpdateVersionNotes(ctx, params)`: a PUT whose body
is the request struct itself. -/
def updateVersionNotes (exec : ExecCall → ExecOutcome UpdateVersionNotesResponse)
    (params : UpdateVersionNotesRequest) : OpResult UpdateVersionNotesResponse :=
  if params.Validate ≠ [] then
    ([], .error (.structValidation params.Validate))
  else
    let call : ExecCall :=
      ⟨.put, updateVersionNotesURL params, some (.updateVersionNotesParams params)⟩
    match exec call with
    | .err e => ([call], .error (.requestFailed "UpdateVersionNotes request failed" (some e)))
    | .resp status rval =>
      if status ≠ 200 ∧ status ≠ 201 then ([call], .error (.apiErr status))
      else ([call], .ok rval)

/-! ## Helper lemmas -/

/-- `Json.listToGoValue` is the element-wise image of `Json.toGoValue`. -/
theorem listToGoValue_eq_map (es : List Json) :
    Json.listToGoValue es = es.map Json.toGoValue := by
  induction es with
  | nil => rfl
  | cons e es ih => simp [Json.listToGoValue, ih]

/-- `collectStrings` panics exactly when some element of the slice is not
a string value. -/
theorem collectStrings_panicked_iff (items : List GoValue) (acc : atomicConditionsName) :
    atomicConditionsName.collectStrings items acc = .panicked ↔
      ∃ v ∈ items, ∀ s, v ≠ GoValue.str s := by
  induction items generalizing acc with
  | nil => simp [atomicConditionsName.collectStrings]
  | cons item rest ih =>
    cases item with
    | str s => simp [atomicConditionsName.collectStrings, ih]
    | nil => simp [atomicConditionsName.collectStrings]
    | bool b => simp [atomicConditionsName.collectStrings]
    | float64 n => simp [atomicConditionsName.collectStrings]
    | int n => simp [atomicConditionsName.collectStrings]
    | slice elems => simp [atomicConditionsName.collectStrings]
    | map fields => simp [atomicConditionsName.collectStrings]

/-- A JSON document renders to a string `GoValue` exactly when it is a
JSON string. -/
theorem toGoValue_str_iff (j : Json) (s : String) :
    j.toGoValue = GoValue.str s ↔ j = Json.str s := by
  cases j <;> simp [Json.toGoValue]

/-- A URL contains a part when it splits around it. -/
def urlHasPart (url part : String) : Prop := ∃ a b, url = a ++ (part ++ b)

/-! ## Claim C1 -/

/-- Claim C1 at the failing input and around it: the string input
`"7"` is normalized to `"7"`, and for `atomicConditionsName` the array
`["a","b"]` yields `["a","b"]` while `null` and objects are ignored
without error — but the JSON *number* `7` does **not** yield `"7"`:
`json.Unmarshal` into `interface{}` produces a `float64`, the switch in
`customDenyID.UnmarshalJSON` has cases only for the `String` and `Int`
reflect kinds, so the field keeps its zero value `""`. -/
theorem customDenyID_number_input_keeps_zero_value :
    customDenyID.unmarshalJSON "" (Json.num 7) = "" ∧
    customDenyID.unmarshalJSON "" (Json.str "7") = "7" ∧
    atomicConditionsName.unmarshalJSON [] (Json.arr [Json.str "a", Json.str "b"]) =
      .ok ["a", "b"] ∧
    customDenyID.unmarshalJSON "" Json.null = "" ∧
    customDenyID.unmarshalJSON "" (Json.obj []) = "" ∧
    atomicConditionsName.unmarshalJSON [] Json.null = .ok [] ∧
    atomicConditionsName.unmarshalJSON [] (Json.obj []) = .ok [] :=
  ⟨rfl, rfl, rfl, rfl, rfl, rfl, rfl⟩

/-! ## Claim C5 -/

/-- Claim C5 at the failing input: with a valid request and the transport
returning the fault "connection reset", `RemoveMatchTarget` returns an
error that wraps nothing (`none`): the source checks `errd` (the `Exec`
error) but hands the request-construction variable `err` — nil at that
point — to `%w`, so the transport fault is not the wrapped error. -/
theorem removeMatchTarget_wraps_nil_error :
    removeMatchTarget (fun _ => .err "connection reset") ⟨1, 2, 3⟩ =
      ([⟨.delete, "/appsec/v1/configs/1/versions/2/match-targets/3", none⟩],
        .error (.requestFailed "RemoveMatchTarget request failed" none)) :=
  rfl

/-! ## Claim C9 -/

/-- Claim C9 refuted at a concrete input: decoding the well-formed JSON
array `[1,2]` through `atomicConditionsName.UnmarshalJSON` aborts in the
`item.Interface().(string)` type assertion instead of terminating
normally. -/
theorem atomicConditionsName_panics_on_number_elements :
    atomicConditionsName.unmarshalJSON [] (Json.arr [Json.num 1, Json.num 2]) = .panicked :=
  rfl

/-- Claim C9 as amended: `atomicConditionsName.UnmarshalJSON` terminates
normally on every well-formed JSON input except a JSON array containing a
non-string element, on which the interface-to-string type assertion in
the slice branch panics; the panic happens exactly there. -/
theorem atomicConditionsName_panic_characterization :
    ∀ (c : atomicConditionsName) (j : Json),
      atomicConditionsName.unmarshalJSON c j = .panicked ↔
        ∃ elems, j = Json.arr elems ∧ ∃ e ∈ elems, ∀ s, e ≠ Json.str s := by
  intro c j
  cases j with
  | arr elems =>
    simp only [atomicConditionsName.unmarshalJSON, Json.toGoValue,
      collectStrings_panicked_iff, listToGoValue_eq_map, List.mem_map]
    constructor
    · rintro ⟨v, ⟨e, he, rfl⟩, hv⟩
      exact ⟨elems, rfl, e, he, fun s hs => hv s (by simp [hs, Json.toGoValue])⟩
    · rintro ⟨elems', heq, e, he, hstr⟩
      cases heq
      refine ⟨e.toGoValue, ⟨e, he, rfl⟩, fun s hv => hstr s ?_⟩
      exact (toGoValue_str_iff e s).mp hv
  | null => simp [atomicConditionsName.unmarshalJSON, Json.toGoValue]
  | bool b => simp [atomicConditionsName.unmarshalJSON, Json.toGoValue]
  | num n => simp [atomicConditionsName.unmarshalJSON, Json.toGoValue]
  | str s => simp [atomicConditionsName.unmarshalJSON, Json.toGoValue]
  | obj fields => simp [atomicConditionsName.unmarshalJSON, Json.toGoValue]

/-! ## Claim C2 -/

/-- Claim C2 refuted at a concrete input: the all-zero
`RemoveReputationAnalysisRequest` fails its own `Validate`, yet
`RemoveReputationAnalysis` — which never calls `Validate` — still hands
the request to `Exec` and returns the transport's fault instead of a
validation error. -/
theorem removeReputationAnalysis_executes_invalid_request :
    RemoveReputationAnalysisRequest.Validate ⟨0, 0, "", false, false⟩ ≠ [] ∧
    removeReputationAnalysis (fun _ => .err "connection refused") ⟨0, 0, "", false, false⟩ =
      ([⟨.put, "/appsec/v1/configs/0/versions/0/security-policies//reputation-analysis",
          some (.removeReputationAnalysisParams ⟨0, 0, "", false, false⟩)⟩],
        .error (.requestFailed "RemoveReputationAnalysis request failed"
          (some "connection refused"))) :=
  ⟨by decide, rfl⟩

/-- Claim C2 as amended: every exposed operation except
`RemoveReputationAnalysis` returns, for a request whose `Validate` fails,
the error wrapping `ErrStructValidation` and performs no `Exec` call
(empty trace); `RemoveReputationAnalysis` instead hands its single call
to `Exec` for every request value. -/
theorem validation_precedes_transport :
    (∀ (params : GetCustomDenyRequest) (exec : ExecCall → ExecOutcome GetCustomDenyResponse),
      params.Validate ≠ [] →
      getCustomDeny exec params = ([], .error (.structValidation params.Validate))) ∧
    (∀ (params : GetCustomDenyListRequest)
      (exec : ExecCall → ExecOutcome GetCustomDenyListResponse),
      params.Validate ≠ [] →
      getCustomDenyList exec params = ([], .error (.structValidation params.Validate))) ∧
    (∀ (params : UpdateCustomDenyRequest)
      (exec : ExecCall → ExecOutcome UpdateCustomDenyResponse),
      params.Validate ≠ [] →
      updateCustomDeny exec params = ([], .error (.structValidation params.Validate))) ∧
    (∀ (params : CreateCustomDenyRequest)
      (exec : ExecCall → ExecOutcome CreateCustomDenyResponse),
      params.Validate ≠ [] →
      createCustomDeny exec params = ([], .error (.structValidation params.Validate))) ∧
    (∀ (params : RemoveCustomDenyRequest)
      (exec : ExecCall → ExecOutcome RemoveCustomDenyResponse),
      params.Validate ≠ [] →
      removeCustomDeny exec params = ([], .error (.structValidation params.Validate))) ∧
    (∀ (params : GetMatchTargetRequest) (exec : ExecCall → ExecOutcome GetMatchTargetResponse),
      params.Validate ≠ [] →
      getMatchTarget exec params = ([], .error (.structValidation params.Validate))) ∧
    (∀ (params : GetMatchTargetsRequest)
      (exec : ExecCall → ExecOutcome GetMatchTargetsResponse),
      params.Validate ≠ [] →
      getMatchTargets exec params = ([], .error (.structValidation params.Validate))) ∧
    (∀ (params : UpdateMatchTargetRequest)
      (exec : ExecCall → ExecOutcome UpdateMatchTargetResponse),
      params.Validate ≠ [] →
      updateMatchTarget exec params = ([], .error (.structValidation params.Validate))) ∧
    (∀ (params : CreateMatchTargetRequest)
      (exec : ExecCall → ExecOutcome CreateMatchTargetResponse),
      params.Validate ≠ [] →
      createMatchTarget exec params = ([], .error (.structValidation params.Validate))) ∧
    (∀ (params : RemoveMatchTargetRequest) (exec : ExecCall → ExecOutcome Unit),
      params.Validate ≠ [] →
      removeMatchTarget exec params = ([], .error (.structValidation params.Validate))) ∧
    (∀ (params : GetReputationAnalysisRequest)
      (exec : ExecCall → ExecOutcome GetReputationAnalysisResponse),
      params.Validate ≠ [] →
      getReputationAnalysis exec params = ([], .error (.structValidation params.Validate))) ∧
    (∀ (params : UpdateReputationAnalysisRequest)
      (exec : ExecCall → ExecOutcome UpdateReputationAnalysisResponse),
      params.Validate ≠ [] →
      updateReputationAnalysis exec params = ([], .error (.structValidation params.Validate))) ∧
    (∀ (params : GetAttackGroupRequest) (exec : ExecCall → ExecOutcome GetAttackGroupResponse),
      params.Validate ≠ [] →
      getAttackGroup exec params = ([], .error (.structValidation params.Validate))) ∧
    (∀ (params : GetAttackGroupsRequest)
      (exec : ExecCall → ExecOutcome GetAttackGroupsResponse),
      params.Validate ≠ [] →
      getAttackGroups exec params = ([], .error (.structValidation params.Validate))) ∧
    (∀ (params : UpdateAttackGroupRequest)
      (exec : ExecCall → ExecOutcome UpdateAttackGroupResponse),
      params.Validate ≠ [] →
      updateAttackGroup exec params = ([], .error (.structValidation params.Validate))) ∧
    (∀ (params : GetReputationProfileRequest)
      (exec : ExecCall → ExecOutcome GetReputationProfileResponse),
      params.Validate ≠ [] →
      getReputationProfile exec params = ([], .error (.structValidation params.Validate))) ∧
    (∀ (params : GetReputationProfilesRequest)
      (exec : ExecCall → ExecOutcome GetReputationProfilesResponse),
      params.Validate ≠ [] →
      getReputationProfiles exec params = ([], .error (.structValidation params.Validate))) ∧
    (∀ (params : UpdateReputationProfileRequest)
      (exec : ExecCall → ExecOutcome UpdateReputationProfileResponse),
      params.Validate ≠ [] →
      updateReputationProfile exec params = ([], .error (.structValidation params.Validate))) ∧
    (∀ (params : CreateReputationProfileRequest)
      (exec : ExecCall → ExecOutcome CreateReputationProfileResponse),
      params.Validate ≠ [] →
      createReputationProfile exec params = ([], .error (.structValidation params.Validate))) ∧
    (∀ (params : RemoveReputationProfileRequest)
      (exec : ExecCall → ExecOutcome RemoveReputationProfileResponse),
      params.Validate ≠ [] →
      removeReputationProfile exec params = ([], .error (.structValidation params.Validate))) ∧
    (∀ (params : GetApiHostnameCoverageOverlappingRequest)
      (exec : ExecCall → ExecOutcome GetApiHostnameCoverageOverlappingResponse),
      params.Validate ≠ [] →
      getApiHostnameCoverageOverlapping exec params =
        ([], .error (.structValidation params.Validate))) ∧
    (∀ (params : GetConfigurationCloneRequest)
      (exec : ExecCall → ExecOutcome GetConfigurationCloneResponse),
      params.Validate ≠ [] →
      getConfigurationClone exec params = ([], .error (.structValidation params.Validate))) ∧
    (∀ (params : CreateConfigurationCloneRequest)
      (exec : ExecCall → ExecOutcome CreateConfigurationCloneResponse),
      params.Validate ≠ [] →
      createConfigurationClone exec params = ([], .error (.structValidation params.Validate))) ∧
    (∀ (params : GetVersionNotesRequest) (exec : ExecCall → ExecOutcome GetVersionNotesResponse),
      params.Validate ≠ [] →
      getVersionNotes exec params = ([], .error (.structValidation params.Validate))) ∧
    (∀ (params : UpdateVersionNotesRequest)
      (exec : ExecCall → ExecOutcome UpdateVersionNotesResponse),
      params.Validate ≠ [] →
      updateVersionNotes exec params = ([], .error (.structValidation params.Validate))) ∧
    (∀ (params : RemoveReputationAnalysisRequest)
      (exec : ExecCall → ExecOutcome RemoveReputationAnalysisResponse),
      (removeReputationAnalysis exec params).1 =
        [⟨.put, removeReputationAnalysisURL params,
          some (.removeReputationAnalysisParams params)⟩]) := by
  refine ⟨?_, ?_, ?_, ?_, ?_, ?_, ?_, ?_, ?_, ?_, ?_, ?_, ?_, ?_, ?_, ?_, ?_, ?_, ?_, ?_,
    ?_, ?_, ?_, ?_, ?_, ?_⟩
  · intro params exec h; simp [getCustomDeny, h]
  · intro params exec h; simp [getCustomDenyList, h]
  · intro params exec h; simp [updateCustomDeny, h]
  · intro params exec h; simp [createCustomDeny, h]
  · intro params exec h; simp [removeCustomDeny, h]
  · intro params exec h; simp [getMatchTarget, h]
  · intro params exec h; simp [getMatchTargets, h]
  · intro params exec h; simp [updateMatchTarget, h]
  · intro params exec h; simp [createMatchTarget, h]
  · intro params exec h; simp [removeMatchTarget, h]
  · intro params exec h; simp [getReputationAnalysis, h]
  · intro params exec h; simp [updateReputationAnalysis, h]
  · intro params exec h; simp [getAttackGroup, h]
  · intro params exec h; simp [getAttackGroups, h]
  · intro params exec h; simp [updateAttackGroup, h]
  · intro params exec h; simp [getReputationProfile, h]
  · intro params exec h; simp [getReputationProfiles, h]
  · intro params exec h; simp [updateReputationProfile, h]
  · intro params exec h; simp [createReputationProfile, h]
  · intro params exec h; simp [removeReputationProfile, h]
  · intro params exec h; simp [getApiHostnameCoverageOverlapping, h]
  · intro params exec h; simp [getConfigurationClone, h]
  · intro params exec h; simp [createConfigurationClone, h]
  · intro params exec h; simp [getVersionNotes, h]
  · intro params exec h; simp [updateVersionNotes, h]
  · intro params exec
    cases hx : exec ⟨.put, removeReputationAnalysisURL params,
        some (.removeReputationAnalysisParams params)⟩ with
    | err e => simp [removeReputationAnalysis, hx]
    | resp s b =>
      by_cases hs : s ≠ 200 ∧ s ≠ 201 <;> simp [removeReputationAnalysis, hx, hs]

/-- Witness for `validation_precedes_transport` at a concrete invalid
request. -/
theorem validation_precedes_transport_witness :
    GetCustomDenyRequest.Validate ⟨0, 0, ""⟩ ≠ [] ∧
    getCustomDeny (fun _ => .err "unreachable") ⟨0, 0, ""⟩ =
      ([], .error (.structValidation (GetCustomDenyRequest.Validate ⟨0, 0, ""⟩))) :=
  ⟨by decide, validation_precedes_transport.1 ⟨0, 0, ""⟩ (fun _ => .err "unreachable") (by decide)⟩

/-! ## Claim C3 -/

/-- Claim C3: each list operation with a client-side filter
(`GetAttackGroups` by `Group`, `GetCustomDenyList` by `ID`,
`GetReputationProfiles` by `ReputationProfileId`) returns, for a
non-default filter value, exactly the fetched entries whose identifying
field equals the filter value, in original order (`List.filter`); an
empty list with no error when nothing matches; and the unfiltered fetched
list for the default filter value. -/
theorem list_post_filter_retains_matches :
    (∀ (params : GetAttackGroupsRequest) (entries : List AttackGroupEntry),
      params.Validate = [] →
      (params.Group ≠ "" →
        (getAttackGroups (fun _ => .resp 200 ⟨entries⟩) params).2 =
          .ok ⟨entries.filter (fun e => e.Group == params.Group)⟩) ∧
      (params.Group ≠ "" → (∀ e ∈ entries, e.Group ≠ params.Group) →
        (getAttackGroups (fun _ => .resp 200 ⟨entries⟩) params).2 = .ok ⟨[]⟩) ∧
      (params.Group = "" →
        (getAttackGroups (fun _ => .resp 200 ⟨entries⟩) params).2 = .ok ⟨entries⟩)) ∧
    (∀ (params : GetCustomDenyListRequest) (entries : List CustomDenyListEntry),
      params.Validate = [] →
      (params.ID ≠ "" →
        (getCustomDenyList (fun _ => .resp 200 ⟨entries⟩) params).2 =
          .ok ⟨entries.filter (fun e => e.ID == params.ID)⟩) ∧
      (params.ID ≠ "" → (∀ e ∈ entries, e.ID ≠ params.ID) →
        (getCustomDenyList (fun _ => .resp 200 ⟨entries⟩) params).2 = .ok ⟨[]⟩) ∧
      (params.ID = "" →
        (getCustomDenyList (fun _ => .resp 200 ⟨entries⟩) params).2 = .ok ⟨entries⟩)) ∧
    (∀ (params : GetReputationProfilesRequest) (entries : List ReputationProfileEntry),
      params.Validate = [] →
      (params.ReputationProfileId ≠ 0 →
        (getReputationProfiles (fun _ => .resp 200 ⟨entries⟩) params).2 =
          .ok ⟨entries.filter (fun e => e.ID == params.ReputationProfileId)⟩) ∧
      (params.ReputationProfileId ≠ 0 → (∀ e ∈ entries, e.ID ≠ params.ReputationProfileId) →
        (getReputationProfiles (fun _ => .resp 200 ⟨entries⟩) params).2 = .ok ⟨[]⟩) ∧
      (params.ReputationProfileId = 0 →
        (getReputationProfiles (fun _ => .resp 200 ⟨entries⟩) params).2 = .ok ⟨entries⟩)) := by
  refine ⟨?_, ?_, ?_⟩
  · intro params entries hv
    have key : ∀ (l acc : List AttackGroupEntry),
        List.foldl (fun acc val => if val.Group = params.Group then acc ++ [val] else acc) acc l
          = acc ++ l.filter (fun e => e.Group == params.Group) := by
      intro l
      induction l with
      | nil => intro acc; simp
      | cons x xs ih => intro acc; by_cases hp : x.Group = params.Group <;> simp [hp, ih]
    refine ⟨?_, ?_, ?_⟩
    · intro hg
      simp [getAttackGroups, hv, hg]
      simpa using key entries []
    · intro hg hnone
      have hfil : entries.filter (fun e => e.Group == params.Group) = [] := by
        rw [List.filter_eq_nil_iff]
        intro a ha
        simpa using hnone a ha
      simp [getAttackGroups, hv, hg]
      simpa [hfil] using key entries []
    · intro hg; simp [getAttackGroups, hv, hg]
  · intro params entries hv
    have key : ∀ (l acc : List CustomDenyListEntry),
        List.foldl (fun acc val => if val.ID = params.ID then acc ++ [val] else acc) acc l
          = acc ++ l.filter (fun e => e.ID == params.ID) := by
      intro l
      induction l with
      | nil => intro acc; simp
      | cons x xs ih => intro acc; by_cases hp : x.ID = params.ID <;> simp [hp, ih]
    refine ⟨?_, ?_, ?_⟩
    · intro hg
      simp [getCustomDenyList, hv, hg]
      simpa using key entries []
    · intro hg hnone
      have hfil : entries.filter (fun e => e.ID == params.ID) = [] := by
        rw [List.filter_eq_nil_iff]
        intro a ha
        simpa using hnone a ha
      simp [getCustomDenyList, hv, hg]
      simpa [hfil] using key entries []
    · intro hg; simp [getCustomDenyList, hv, hg]
  · intro params entries hv
    have key : ∀ (l acc : List ReputationProfileEntry),
        List.foldl
            (fun acc val => if val.ID = params.ReputationProfileId then acc ++ [val] else acc)
            acc l
          = acc ++ l.filter (fun e => e.ID == params.ReputationProfileId) := by
      intro l
      induction l with
      | nil => intro acc; simp
      | cons x xs ih =>
        intro acc; by_cases hp : x.ID = params.ReputationProfileId <;> simp [hp, ih]
    refine ⟨?_, ?_, ?_⟩
    · intro hg
      simp [getReputationProfiles, hv, hg]
      simpa using key entries []
    · intro hg hnone
      have hfil : entries.filter (fun e => e.ID == params.ReputationProfileId) = [] := by
        rw [List.filter_eq_nil_iff]
        intro a ha
        simpa using hnone a ha
      simp [getReputationProfiles, hv, hg]
      simpa [hfil] using key entries []
    · intro hg; simp [getReputationProfiles, hv, hg]

/-- Witness for `list_post_filter_retains_matches` at a concrete fetched
list: filtering two attack groups by group name "XSS" keeps exactly the
matching entry. -/
theorem list_post_filter_retains_matches_witness :
    GetAttackGroupsRequest.Validate ⟨1, 2, "pol1", "XSS"⟩ = [] ∧
    (getAttackGroups
        (fun _ => .resp 200 ⟨[⟨"XSS", "deny", none⟩, ⟨"SQL", "alert", none⟩]⟩)
        ⟨1, 2, "pol1", "XSS"⟩).2 =
      .ok ⟨[⟨"XSS", "deny", none⟩]⟩ := by
  refine ⟨by decide, ?_⟩
  have h := ((list_post_filter_retains_matches.1 ⟨1, 2, "pol1", "XSS"⟩
    [⟨"XSS", "deny", none⟩, ⟨"SQL", "alert", none⟩] (by decide)).1 (by decide))
  rw [h]
  rfl

/-! ## Claim C4 -/

/-- Claim C4: for every operation of the package and every status code
the transport returns, a GET succeeds exactly on 200, a POST or PUT
(create/update — including the PUT-based `RemoveReputationAnalysis`)
exactly on 200 or 201, and a DELETE exactly on 200 or 204; any other
status yields the nil response together with the structured API error the
shared error mapper produces for that response. -/
theorem status_codes_decide_success :
    (∀ (params : GetCustomDenyRequest) (s : Int) (body : GetCustomDenyResponse),
      params.Validate = [] →
      (((getCustomDeny (fun _ => .resp s body) params).2.isOk = true) ↔ s = 200) ∧
      (¬s = 200 →
        (getCustomDeny (fun _ => .resp s body) params).2 = .error (.apiErr s))) ∧
    (∀ (params : GetCustomDenyListRequest) (s : Int) (body : GetCustomDenyListResponse),
      params.Validate = [] →
      (((getCustomDenyList (fun _ => .resp s body) params).2.isOk = true) ↔ s = 200) ∧
      (¬s = 200 →
        (getCustomDenyList (fun _ => .resp s body) params).2 = .error (.apiErr s))) ∧
    (∀ (params : UpdateCustomDenyRequest) (s : Int) (body : UpdateCustomDenyResponse),
      params.Validate = [] →
      (((updateCustomDeny (fun _ => .resp s body) params).2.isOk = true) ↔
        (s = 200 ∨ s = 201)) ∧
      (¬(s = 200 ∨ s = 201) →
        (updateCustomDeny (fun _ => .resp s body) params).2 = .error (.apiErr s))) ∧
    (∀ (params : CreateCustomDenyRequest) (s : Int) (body : CreateCustomDenyResponse),
      params.Validate = [] →
      (((createCustomDeny (fun _ => .resp s body) params).2.isOk = true) ↔
        (s = 200 ∨ s = 201)) ∧
      (¬(s = 200 ∨ s = 201) →
        (createCustomDeny (fun _ => .resp s body) params).2 = .error (.apiErr s))) ∧
    (∀ (params : RemoveCustomDenyRequest) (s : Int) (body : RemoveCustomDenyResponse),
      params.Validate = [] →
      (((removeCustomDeny (fun _ => .resp s body) params).2.isOk = true) ↔
        (s = 200 ∨ s = 204)) ∧
      (¬(s = 200 ∨ s = 204) →
        (removeCustomDeny (fun _ => .resp s body) params).2 = .error (.apiErr s))) ∧
    (∀ (params : GetMatchTargetRequest) (s : Int) (body : GetMatchTargetResponse),
      params.Validate = [] →
      (((getMatchTarget (fun _ => .resp s body) params).2.isOk = true) ↔ s = 200) ∧
      (¬s = 200 →
        (getMatchTarget (fun _ => .resp s body) params).2 = .error (.apiErr s))) ∧
    (∀ (params : GetMatchTargetsRequest) (s : Int) (body : GetMatchTargetsResponse),
      params.Validate = [] →
      (((getMatchTargets (fun _ => .resp s body) params).2.isOk = true) ↔ s = 200) ∧
      (¬s = 200 →
        (getMatchTargets (fun _ => .resp s body) params).2 = .error (.apiErr s))) ∧
    (∀ (params : UpdateMatchTargetRequest) (s : Int) (body : UpdateMatchTargetResponse),
      params.Validate = [] →
      (((updateMatchTarget (fun _ => .resp s body) params).2.isOk = true) ↔
        (s = 200 ∨ s = 201)) ∧
      (¬(s = 200 ∨ s = 201) →
        (updateMatchTarget (fun _ => .resp s body) params).2 = .error (.apiErr s))) ∧
    (∀ (params : CreateMatchTargetRequest) (s : Int) (body : CreateMatchTargetResponse),
      params.Validate = [] →
      (((createMatchTarget (fun _ => .resp s body) params).2.isOk = true) ↔
        (s = 200 ∨ s = 201)) ∧
      (¬(s = 200 ∨ s = 201) →
        (createMatchTarget (fun _ => .resp s body) params).2 = .error (.apiErr s))) ∧
    (∀ (params : RemoveMatchTargetRequest) (s : Int) (body : Unit),
      params.Validate = [] →
      (((removeMatchTarget (fun _ => .resp s body) params).2.isOk = true) ↔
        (s = 200 ∨ s = 204)) ∧
      (¬(s = 200 ∨ s = 204) →
        (removeMatchTarget (fun _ => .resp s body) params).2 = .error (.apiErr s))) ∧
    (∀ (params : GetReputationAnalysisRequest) (s : Int) (body : GetReputationAnalysisResponse),
      params.Validate = [] →
      (((getReputationAnalysis (fun _ => .resp s body) params).2.isOk = true) ↔ s = 200) ∧
      (¬s = 200 →
        (getReputationAnalysis (fun _ => .resp s body) params).2 = .error (.apiErr s))) ∧
    (∀ (params : UpdateReputationAnalysisRequest) (s : Int)
      (body : UpdateReputationAnalysisResponse),
      params.Validate = [] →
      (((updateReputationAnalysis (fun _ => .resp s body) params).2.isOk = true) ↔
        (s = 200 ∨ s = 201)) ∧
      (¬(s = 200 ∨ s = 201) →
        (updateReputationAnalysis (fun _ => .resp s body) params).2 = .error (.apiErr s))) ∧
    (∀ (params : RemoveReputationAnalysisRequest) (s : Int)
      (body : RemoveReputationAnalysisResponse),
      (((removeReputationAnalysis (fun _ => .resp s body) params).2.isOk = true) ↔
        (s = 200 ∨ s = 201)) ∧
      (¬(s = 200 ∨ s = 201) →
        (removeReputationAnalysis (fun _ => .resp s body) params).2 = .error (.apiErr s))) ∧
    (∀ (params : GetAttackGroupRequest) (s : Int) (body : GetAttackGroupResponse),
      params.Validate = [] →
      (((getAttackGroup (fun _ => .resp s body) params).2.isOk = true) ↔ s = 200) ∧
      (¬s = 200 →
        (getAttackGroup (fun _ => .resp s body) params).2 = .error (.apiErr s))) ∧
    (∀ (params : GetAttackGroupsRequest) (s : Int) (body : GetAttackGroupsResponse),
      params.Validate = [] →
      (((getAttackGroups (fun _ => .resp s body) params).2.isOk = true) ↔ s = 200) ∧
      (¬s = 200 →
        (getAttackGroups (fun _ => .resp s body) params).2 = .error (.apiErr s))) ∧
    (∀ (params : UpdateAttackGroupRequest) (s : Int) (body : UpdateAttackGroupResponse),
      params.Validate = [] →
      (((updateAttackGroup (fun _ => .resp s body) params).2.isOk = true) ↔
        (s = 200 ∨ s = 201)) ∧
      (¬(s = 200 ∨ s = 201) →
        (updateAttackGroup (fun _ => .resp s body) params).2 = .error (.apiErr s))) ∧
    (∀ (params : GetReputationProfileRequest) (s : Int) (body : GetReputationProfileResponse),
      params.Validate = [] →
      (((getReputationProfile (fun _ => .resp s body) params).2.isOk = true) ↔ s = 200) ∧
      (¬s = 200 →
        (getReputationProfile (fun _ => .resp s body) params).2 = .error (.apiErr s))) ∧
    (∀ (params : GetReputationProfilesRequest) (s : Int) (body : GetReputationProfilesResponse),
      params.Validate = [] →
      (((getReputationProfiles (fun _ => .resp s body) params).2.isOk = true) ↔ s = 200) ∧
      (¬s = 200 →
        (getReputationProfiles (fun _ => .resp s body) params).2 = .error (.apiErr s))) ∧
    (∀ (params : UpdateReputationProfileRequest) (s : Int)
      (body : UpdateReputationProfileResponse),
      params.Validate = [] →
      (((updateReputationProfile (fun _ => .resp s body) params).2.isOk = true) ↔
        (s = 200 ∨ s = 201)) ∧
      (¬(s = 200 ∨ s = 201) →
        (updateReputationProfile (fun _ => .resp s body) params).2 = .error (.apiErr s))) ∧
    (∀ (params : CreateReputationProfileRequest) (s : Int)
      (body : CreateReputationProfileResponse),
      params.Validate = [] →
      (((createReputationProfile (fun _ => .resp s body) params).2.isOk = true) ↔
        (s = 200 ∨ s = 201)) ∧
      (¬(s = 200 ∨ s = 201) →
        (createReputationProfile (fun _ => .resp s body) params).2 = .error (.apiErr s))) ∧
    (∀ (params : RemoveReputationProfileRequest) (s : Int)
      (body : RemoveReputationProfileResponse),
      params.Validate = [] →
      (((removeReputationProfile (fun _ => .resp s body) params).2.isOk = true) ↔
        (s = 200 ∨ s = 204)) ∧
      (¬(s = 200 ∨ s = 204) →
        (removeReputationProfile (fun _ => .resp s body) params).2 = .error (.apiErr s))) ∧
    (∀ (params : GetApiHostnameCoverageOverlappingRequest) (s : Int)
      (body : GetApiHostnameCoverageOverlappingResponse),
      params.Validate = [] →
      (((getApiHostnameCoverageOverlapping (fun _ => .resp s body) params).2.isOk = true) ↔
        s = 200) ∧
      (¬s = 200 →
        (getApiHostnameCoverageOverlapping (fun _ => .resp s body) params).2 =
          .error (.apiErr s))) ∧
    (∀ (params : GetConfigurationCloneRequest) (s : Int) (body : GetConfigurationCloneResponse),
      params.Validate = [] →
      (((getConfigurationClone (fun _ => .resp s body) params).2.isOk = true) ↔ s = 200) ∧
      (¬s = 200 →
        (getConfigurationClone (fun _ => .resp s body) params).2 = .error (.apiErr s))) ∧
    (∀ (params : CreateConfigurationCloneRequest) (s : Int)
      (body : CreateConfigurationCloneResponse),
      params.Validate = [] →
      (((createConfigurationClone (fun _ => .resp s body) params).2.isOk = true) ↔
        (s = 200 ∨ s = 201)) ∧
      (¬(s = 200 ∨ s = 201) →
        (createConfigurationClone (fun _ => .resp s body) params).2 = .error (.apiErr s))) ∧
    (∀ (params : GetVersionNotesRequest) (s : Int) (body : GetVersionNotesResponse),
      params.Validate = [] →
      (((getVersionNotes (fun _ => .resp s body) params).2.isOk = true) ↔ s = 200) ∧
      (¬s = 200 →
        (getVersionNotes (fun _ => .resp s body) params).2 = .error (.apiErr s))) ∧
    (∀ (params : UpdateVersionNotesRequest) (s : Int) (body : UpdateVersionNotesResponse),
      params.Validate = [] →
      (((updateVersionNotes (fun _ => .resp s body) params).2.isOk = true) ↔
        (s = 200 ∨ s = 201)) ∧
      (¬(s = 200 ∨ s = 201) →
        (updateVersionNotes (fun _ => .resp s body) params).2 = .error (.apiErr s))) := by
  refine ⟨?_, ?_, ?_, ?_, ?_, ?_, ?_, ?_, ?_, ?_, ?_, ?_, ?_, ?_, ?_, ?_, ?_, ?_, ?_, ?_,
    ?_, ?_, ?_, ?_, ?_, ?_⟩
  · intro params s body h
    constructor
    · by_cases hs : s = 200 <;> simp [getCustomDeny, h, hs, Except.isOk, Except.toBool]
    · intro hs; simp [getCustomDeny, h, hs]
  · intro params s body h
    constructor
    · by_cases hs : s = 200
      · by_cases hid : params.ID = "" <;>
          simp [getCustomDenyList, h, hs, hid, Except.isOk, Except.toBool]
      · simp [getCustomDenyList, h, hs, Except.isOk, Except.toBool]
    · intro hs; simp [getCustomDenyList, h, hs]
  · intro params s body h
    constructor
    · by_cases h1 : s = 200 <;> by_cases h2 : s = 201 <;>
        simp [updateCustomDeny, h, h1, h2, Except.isOk, Except.toBool]
    · intro hs
      rcases not_or.mp hs with ⟨h1, h2⟩
      simp [updateCustomDeny, h, h1, h2]
  · intro params s body h
    constructor
    · by_cases h1 : s = 200 <;> by_cases h2 : s = 201 <;>
        simp [createCustomDeny, h, h1, h2, Except.isOk, Except.toBool]
    · intro hs
      rcases not_or.mp hs with ⟨h1, h2⟩
      simp [createCustomDeny, h, h1, h2]
  · intro params s body h
    constructor
    · by_cases h1 : s = 200 <;> by_cases h2 : s = 204 <;>
        simp [removeCustomDeny, h, h1, h2, Except.isOk, Except.toBool]
    · intro hs
      rcases not_or.mp hs with ⟨h1, h2⟩
      simp [removeCustomDeny, h, h1, h2]
  · intro params s body h
    constructor
    · by_cases hs : s = 200 <;> simp [getMatchTarget, h, hs, Except.isOk, Except.toBool]
    · intro hs; simp [getMatchTarget, h, hs]
  · intro params s body h
    constructor
    · by_cases hs : s = 200
      · by_cases hid : params.TargetID = 0 <;>
          simp [getMatchTargets, h, hs, hid, Except.isOk, Except.toBool]
      · simp [getMatchTargets, h, hs, Except.isOk, Except.toBool]
    · intro hs; simp [getMatchTargets, h, hs]
  · intro params s body h
    constructor
    · by_cases h1 : s = 200 <;> by_cases h2 : s = 201 <;>
        simp [updateMatchTarget, h, h1, h2, Except.isOk, Except.toBool]
    · intro hs
      rcases not_or.mp hs with ⟨h1, h2⟩
      simp [updateMatchTarget, h, h1, h2]
  · intro params s body h
    constructor
    · by_cases h1 : s = 200 <;> by_cases h2 : s = 201 <;>
        simp [createMatchTarget, h, h1, h2, Except.isOk, Except.toBool]
    · intro hs
      rcases not_or.mp hs with ⟨h1, h2⟩
      simp [createMatchTarget, h, h1, h2]
  · intro params s body h
    constructor
    · by_cases h1 : s = 200 <;> by_cases h2 : s = 204 <;>
        simp [removeMatchTarget, h, h1, h2, Except.isOk, Except.toBool]
    · intro hs
      rcases not_or.mp hs with ⟨h1, h2⟩
      simp [removeMatchTarget, h, h1, h2]
  · intro params s body h
    constructor
    · by_cases hs : s = 200 <;> simp [getReputationAnalysis, h, hs, Except.isOk, Except.toBool]
    · intro hs; simp [getReputationAnalysis, h, hs]
  · intro params s body h
    constructor
    · by_cases h1 : s = 200 <;> by_cases h2 : s = 201 <;>
        simp [updateReputationAnalysis, h, h1, h2, Except.isOk, Except.toBool]
    · intro hs
      rcases not_or.mp hs with ⟨h1, h2⟩
      simp [updateReputationAnalysis, h, h1, h2]
  · intro params s body
    constructor
    · by_cases h1 : s = 200 <;> by_cases h2 : s = 201 <;>
        simp [removeReputationAnalysis, h1, h2, Except.isOk, Except.toBool]
    · intro hs
      rcases not_or.mp hs with ⟨h1, h2⟩
      simp [removeReputationAnalysis, h1, h2]
  · intro params s body h
    constructor
    · by_cases hs : s = 200 <;> simp [getAttackGroup, h, hs, Except.isOk, Except.toBool]
    · intro hs; simp [getAttackGroup, h, hs]
  · intro params s body h
    constructor
    · by_cases hs : s = 200
      · by_cases hid : params.Group = "" <;>
          simp [getAttackGroups, h, hs, hid, Except.isOk, Except.toBool]
      · simp [getAttackGroups, h, hs, Except.isOk, Except.toBool]
    · intro hs; simp [getAttackGroups, h, hs]
  · intro params s body h
    constructor
    · by_cases h1 : s = 200 <;> by_cases h2 : s = 201 <;>
        simp [updateAttackGroup, h, h1, h2, Except.isOk, Except.toBool]
    · intro hs
      rcases not_or.mp hs with ⟨h1, h2⟩
      simp [updateAttackGroup, h, h1, h2]
  · intro params s body h
    constructor
    · by_cases hs : s = 200 <;> simp [getReputationProfile, h, hs, Except.isOk, Except.toBool]
    · intro hs; simp [getReputationProfile, h, hs]
  · intro params s body h
    constructor
    · by_cases hs : s = 200
      · by_cases hid : params.ReputationProfileId = 0 <;>
          simp [getReputationProfiles, h, hs, hid, Except.isOk, Except.toBool]
      · simp [getReputationProfiles, h, hs, Except.isOk, Except.toBool]
    · intro hs; simp [getReputationProfiles, h, hs]
  · intro params s body h
    constructor
    · by_cases h1 : s = 200 <;> by_cases h2 : s = 201 <;>
        simp [updateReputationProfile, h, h1, h2, Except.isOk, Except.toBool]
    · intro hs
      rcases not_or.mp hs with ⟨h1, h2⟩
      simp [updateReputationProfile, h, h1, h2]
  · intro params s body h
    constructor
    · by_cases h1 : s = 200 <;> by_cases h2 : s = 201 <;>
        simp [createReputationProfile, h, h1, h2, Except.isOk, Except.toBool]
    · intro hs
      rcases not_or.mp hs with ⟨h1, h2⟩
      simp [createReputationProfile, h, h1, h2]
  · intro params s body h
    constructor
    · by_cases h1 : s = 200 <;> by_cases h2 : s = 204 <;>
        simp [removeReputationProfile, h, h1, h2, Except.isOk, Except.toBool]
    · intro hs
      rcases not_or.mp hs with ⟨h1, h2⟩
      simp [removeReputationProfile, h, h1, h2]
  · intro params s body h
    constructor
    · by_cases hs : s = 200 <;>
        simp [getApiHostnameCoverageOverlapping, h, hs, Except.isOk, Except.toBool]
    · intro hs; simp [getApiHostnameCoverageOverlapping, h, hs]
  · intro params s body h
    constructor
    · by_cases hs : s = 200 <;> simp [getConfigurationClone, h, hs, Except.isOk, Except.toBool]
    · intro hs; simp [getConfigurationClone, h, hs]
  · intro params s body h
    constructor
    · by_cases h1 : s = 200 <;> by_cases h2 : s = 201 <;>
        simp [createConfigurationClone, h, h1, h2, Except.isOk, Except.toBool]
    · intro hs
      rcases not_or.mp hs with ⟨h1, h2⟩
      simp [createConfigurationClone, h, h1, h2]
  · intro params s body h
    constructor
    · by_cases hs : s = 200 <;> simp [getVersionNotes, h, hs, Except.isOk, Except.toBool]
    · intro hs; simp [getVersionNotes, h, hs]
  · intro params s body h
    constructor
    · by_cases h1 : s = 200 <;> by_cases h2 : s = 201 <;>
        simp [updateVersionNotes, h, h1, h2, Except.isOk, Except.toBool]
    · intro hs
      rcases not_or.mp hs with ⟨h1, h2⟩
      simp [updateVersionNotes, h, h1, h2]

/-- Witness for `status_codes_decide_success`: a valid `GetCustomDeny`
call answered with status 404 yields the structured API error 404. -/
theorem status_codes_decide_success_witness :
    GetCustomDenyRequest.Validate ⟨1, 2, "deny1"⟩ = [] ∧
    (getCustomDeny (fun _ => .resp 404 ⟨"", "", "", []⟩) ⟨1, 2, "deny1"⟩).2 =
      .error (.apiErr 404) :=
  ⟨by decide,
    (status_codes_decide_success.1 ⟨1, 2, "deny1"⟩ 404 ⟨"", "", "", []⟩ (by decide)).2
      (by decide)⟩

/-! ## Claim C6 -/

/-- Claim C6 refuted at a concrete input: a `GetReputationProfileRequest`
with `ReputationProfileId` absent fails validation, but the error names
the key `"RatePolicyID"` — not the `ReputationProfileId` field the claim
requires. -/
theorem getReputationProfile_validate_names_RatePolicyID :
    GetReputationProfileRequest.Validate ⟨1, 1, 0⟩ = ["RatePolicyID"] ∧
    "ReputationProfileId" ∉ GetReputationProfileRequest.Validate ⟨1, 1, 0⟩ := by
  decide

/-- Claim C6 as amended: for every request type, a request missing a
required field fails `Validate` with an error naming that field, and a
request with all required fields present passes — except that
`GetReputationProfileRequest` reports a missing `ReputationProfileId`
under the copy-pasted key `"RatePolicyID"` and never under the field's
own name. -/
theorem validate_names_missing_fields :
    (∀ v : GetCustomDenyRequest,
      (v.Validate = [] ↔ ¬v.ConfigID = 0 ∧ ¬v.Version = 0 ∧ ¬v.ID = "") ∧
      (v.ConfigID = 0 → "ConfigID" ∈ v.Validate) ∧
      (v.Version = 0 → "Version" ∈ v.Validate) ∧
      (v.ID = "" → "ID" ∈ v.Validate)) ∧
    (∀ v : GetCustomDenyListRequest,
      (v.Validate = [] ↔ ¬v.ConfigID = 0 ∧ ¬v.Version = 0) ∧
      (v.ConfigID = 0 → "ConfigID" ∈ v.Validate) ∧
      (v.Version = 0 → "Version" ∈ v.Validate)) ∧
    (∀ v : CreateCustomDenyRequest,
      (v.Validate = [] ↔ ¬v.ConfigID = 0 ∧ ¬v.Version = 0) ∧
      (v.ConfigID = 0 → "ConfigID" ∈ v.Validate) ∧
      (v.Version = 0 → "Version" ∈ v.Validate)) ∧
    (∀ v : UpdateCustomDenyRequest,
      (v.Validate = [] ↔ ¬v.ConfigID = 0 ∧ ¬v.Version = 0 ∧ ¬v.ID = "") ∧
      (v.ConfigID = 0 → "ConfigID" ∈ v.Validate) ∧
      (v.Version = 0 → "Version" ∈ v.Validate) ∧
      (v.ID = "" → "ID" ∈ v.Validate)) ∧
    (∀ v : RemoveCustomDenyRequest,
      (v.Validate = [] ↔ ¬v.ConfigID = 0 ∧ ¬v.Version = 0 ∧ ¬v.ID = "") ∧
      (v.ConfigID = 0 → "ConfigID" ∈ v.Validate) ∧
      (v.Version = 0 → "Version" ∈ v.Validate) ∧
      (v.ID = "" → "ID" ∈ v.Validate)) ∧
    (∀ v : GetMatchTargetRequest,
      (v.Validate = [] ↔ ¬v.ConfigID = 0 ∧ ¬v.ConfigVersion = 0 ∧ ¬v.TargetID = 0) ∧
      (v.ConfigID = 0 → "ConfigID" ∈ v.Validate) ∧
      (v.ConfigVersion = 0 → "ConfigVersion" ∈ v.Validate) ∧
      (v.TargetID = 0 → "TargetID" ∈ v.Validate)) ∧
    (∀ v : GetMatchTargetsRequest,
      (v.Validate = [] ↔ ¬v.ConfigID = 0 ∧ ¬v.ConfigVersion = 0) ∧
      (v.ConfigID = 0 → "ConfigID" ∈ v.Validate) ∧
      (v.ConfigVersion = 0 → "ConfigVersion" ∈ v.Validate)) ∧
    (∀ v : CreateMatchTargetRequest,
      (v.Validate = [] ↔ ¬v.ConfigID = 0 ∧ ¬v.ConfigVersion = 0) ∧
      (v.ConfigID = 0 → "ConfigID" ∈ v.Validate) ∧
      (v.ConfigVersion = 0 → "ConfigVersion" ∈ v.Validate)) ∧
    (∀ v : UpdateMatchTargetRequest,
      (v.Validate = [] ↔ ¬v.ConfigID = 0 ∧ ¬v.ConfigVersion = 0 ∧ ¬v.TargetID = 0) ∧
      (v.ConfigID = 0 → "ConfigID" ∈ v.Validate) ∧
      (v.ConfigVersion = 0 → "ConfigVersion" ∈ v.Validate) ∧
      (v.TargetID = 0 → "TargetID" ∈ v.Validate)) ∧
    (∀ v : RemoveMatchTargetRequest,
      (v.Validate = [] ↔ ¬v.ConfigID = 0 ∧ ¬v.ConfigVersion = 0 ∧ ¬v.TargetID = 0) ∧
      (v.ConfigID = 0 → "ConfigID" ∈ v.Validate) ∧
      (v.ConfigVersion = 0 → "ConfigVersion" ∈ v.Validate) ∧
      (v.TargetID = 0 → "TargetID" ∈ v.Validate)) ∧
    (∀ v : GetReputationAnalysisRequest,
      (v.Validate = [] ↔ ¬v.ConfigID = 0 ∧ ¬v.Version = 0 ∧ ¬v.PolicyID = "") ∧
      (v.ConfigID = 0 → "ConfigID" ∈ v.Validate) ∧
      (v.Version = 0 → "Version" ∈ v.Validate) ∧
      (v.PolicyID = "" → "PolicyID" ∈ v.Validate)) ∧
    (∀ v : UpdateReputationAnalysisRequest,
      (v.Validate = [] ↔ ¬v.ConfigID = 0 ∧ ¬v.Version = 0 ∧ ¬v.PolicyID = "") ∧
      (v.ConfigID = 0 → "ConfigID" ∈ v.Validate) ∧
      (v.Version = 0 → "Version" ∈ v.Validate) ∧
      (v.PolicyID = "" → "PolicyID" ∈ v.Validate)) ∧
    (∀ v : RemoveReputationAnalysisRequest,
      (v.Validate = [] ↔ ¬v.ConfigID = 0 ∧ ¬v.Version = 0 ∧ ¬v.PolicyID = "") ∧
      (v.ConfigID = 0 → "ConfigID" ∈ v.Validate) ∧
      (v.Version = 0 → "Version" ∈ v.Validate) ∧
      (v.PolicyID = "" → "PolicyID" ∈ v.Validate)) ∧
    (∀ v : GetAttackGroupRequest,
      (v.Validate = [] ↔ ¬v.ConfigID = 0 ∧ ¬v.Version = 0 ∧ ¬v.PolicyID = "") ∧
      (v.ConfigID = 0 → "ConfigID" ∈ v.Validate) ∧
      (v.Version = 0 → "Version" ∈ v.Validate) ∧
      (v.PolicyID = "" → "PolicyID" ∈ v.Validate)) ∧
    (∀ v : GetAttackGroupsRequest,
      (v.Validate = [] ↔ ¬v.ConfigID = 0 ∧ ¬v.Version = 0 ∧ ¬v.PolicyID = "") ∧
      (v.ConfigID = 0 → "ConfigID" ∈ v.Validate) ∧
      (v.Version = 0 → "Version" ∈ v.Validate) ∧
      (v.PolicyID = "" → "PolicyID" ∈ v.Validate)) ∧
    (∀ v : UpdateAttackGroupRequest,
      (v.Validate = [] ↔ ¬v.ConfigID = 0 ∧ ¬v.Version = 0 ∧ ¬v.PolicyID = "") ∧
      (v.ConfigID = 0 → "ConfigID" ∈ v.Validate) ∧
      (v.Version = 0 → "Version" ∈ v.Validate) ∧
      (v.PolicyID = "" → "PolicyID" ∈ v.Validate)) ∧
    (∀ v : GetReputationProfileRequest,
      (v.Validate = [] ↔ ¬v.ConfigID = 0 ∧ ¬v.ConfigVersion = 0 ∧ ¬v.ReputationProfileId = 0) ∧
      (v.ConfigID = 0 → "ConfigID" ∈ v.Validate) ∧
      (v.ConfigVersion = 0 → "ConfigVersion" ∈ v.Validate) ∧
      (v.ReputationProfileId = 0 → "RatePolicyID" ∈ v.Validate) ∧
      "ReputationProfileId" ∉ v.Validate) ∧
    (∀ v : GetReputationProfilesRequest,
      (v.Validate = [] ↔ ¬v.ConfigID = 0 ∧ ¬v.ConfigVersion = 0) ∧
      (v.ConfigID = 0 → "ConfigID" ∈ v.Validate) ∧
      (v.ConfigVersion = 0 → "ConfigVersion" ∈ v.Validate)) ∧
    (∀ v : CreateReputationProfileRequest,
      (v.Validate = [] ↔ ¬v.ConfigID = 0 ∧ ¬v.ConfigVersion = 0) ∧
      (v.ConfigID = 0 → "ConfigID" ∈ v.Validate) ∧
      (v.ConfigVersion = 0 → "ConfigVersion" ∈ v.Validate)) ∧
    (∀ v : UpdateReputationProfileRequest,
      (v.Validate = [] ↔ ¬v.ConfigID = 0 ∧ ¬v.ConfigVersion = 0 ∧ ¬v.ReputationProfileId = 0) ∧
      (v.ConfigID = 0 → "ConfigID" ∈ v.Validate) ∧
      (v.ConfigVersion = 0 → "ConfigVersion" ∈ v.Validate) ∧
      (v.ReputationProfileId = 0 → "ReputationProfileId" ∈ v.Validate)) ∧
    (∀ v : RemoveReputationProfileRequest,
      (v.Validate = [] ↔ ¬v.ConfigID = 0 ∧ ¬v.ConfigVersion = 0 ∧ ¬v.ReputationProfileId = 0) ∧
      (v.ConfigID = 0 → "ConfigID" ∈ v.Validate) ∧
      (v.ConfigVersion = 0 → "ConfigVersion" ∈ v.Validate) ∧
      (v.ReputationProfileId = 0 → "ReputationProfileId" ∈ v.Validate)) ∧
    (∀ v : GetApiHostnameCoverageOverlappingRequest,
      (v.Validate = [] ↔ ¬v.ConfigID = 0 ∧ ¬v.Version = 0) ∧
      (v.ConfigID = 0 → "ConfigID" ∈ v.Validate) ∧
      (v.Version = 0 → "Version" ∈ v.Validate)) ∧
    (∀ v : GetConfigurationCloneRequest,
      (v.Validate = [] ↔ ¬v.ConfigID = 0 ∧ ¬v.Version = 0) ∧
      (v.ConfigID = 0 → "ConfigID" ∈ v.Validate) ∧
      (v.Version = 0 → "Version" ∈ v.Validate)) ∧
    (∀ v : CreateConfigurationCloneRequest,
      (v.Validate = [] ↔ ¬v.CreateFrom.ConfigID = 0) ∧
      (v.CreateFrom.ConfigID = 0 → "CreateFromConfigID" ∈ v.Validate)) ∧
    (∀ v : GetVersionNotesRequest,
      (v.Validate = [] ↔ ¬v.ConfigID = 0 ∧ ¬v.Version = 0) ∧
      (v.ConfigID = 0 → "ConfigID" ∈ v.Validate) ∧
      (v.Version = 0 → "Version" ∈ v.Validate)) ∧
    (∀ v : UpdateVersionNotesRequest,
      (v.Validate = [] ↔ ¬v.ConfigID = 0 ∧ ¬v.Version = 0) ∧
      (v.ConfigID = 0 → "ConfigID" ∈ v.Validate) ∧
      (v.Version = 0 → "Version" ∈ v.Validate)) := by
  refine ⟨?_, ?_, ?_, ?_, ?_, ?_, ?_, ?_, ?_, ?_, ?_, ?_, ?_, ?_, ?_, ?_, ?_, ?_, ?_, ?_,
    ?_, ?_, ?_, ?_, ?_, ?_⟩
  · intro v
    by_cases h1 : v.ConfigID = 0 <;> by_cases h2 : v.Version = 0 <;> by_cases h3 : v.ID = "" <;>
      simp [GetCustomDenyRequest.Validate, validationErrors, requiredInt, requiredString,
        h1, h2, h3]
  · intro v
    by_cases h1 : v.ConfigID = 0 <;> by_cases h2 : v.Version = 0 <;>
      simp [GetCustomDenyListRequest.Validate, validationErrors, requiredInt, requiredString,
        h1, h2]
  · intro v
    by_cases h1 : v.ConfigID = 0 <;> by_cases h2 : v.Version = 0 <;>
      simp [CreateCustomDenyRequest.Validate, validationErrors, requiredInt, requiredString,
        h1, h2]
  · intro v
    by_cases h1 : v.ConfigID = 0 <;> by_cases h2 : v.Version = 0 <;> by_cases h3 : v.ID = "" <;>
      simp [UpdateCustomDenyRequest.Validate, validationErrors, requiredInt, requiredString,
        h1, h2, h3]
  · intro v
    by_cases h1 : v.ConfigID = 0 <;> by_cases h2 : v.Version = 0 <;> by_cases h3 : v.ID = "" <;>
      simp [RemoveCustomDenyRequest.Validate, validationErrors, requiredInt, requiredString,
        h1, h2, h3]
  · intro v
    by_cases h1 : v.ConfigID = 0 <;> by_cases h2 : v.ConfigVersion = 0 <;>
      by_cases h3 : v.TargetID = 0 <;>
      simp [GetMatchTargetRequest.Validate, validationErrors, requiredInt, requiredString,
        h1, h2, h3]
  · intro v
    by_cases h1 : v.ConfigID = 0 <;> by_cases h2 : v.ConfigVersion = 0 <;>
      simp [GetMatchTargetsRequest.Validate, validationErrors, requiredInt, requiredString,
        h1, h2]
  · intro v
    by_cases h1 : v.ConfigID = 0 <;> by_cases h2 : v.ConfigVersion = 0 <;>
      simp [CreateMatchTargetRequest.Validate, validationErrors, requiredInt, requiredString,
        h1, h2]
  · intro v
    by_cases h1 : v.ConfigID = 0 <;> by_cases h2 : v.ConfigVersion = 0 <;>
      by_cases h3 : v.TargetID = 0 <;>
      simp [UpdateMatchTargetRequest.Validate, validationErrors, requiredInt, requiredString,
        h1, h2, h3]
  · intro v
    by_cases h1 : v.ConfigID = 0 <;> by_cases h2 : v.ConfigVersion = 0 <;>
      by_cases h3 : v.TargetID = 0 <;>
      simp [RemoveMatchTargetRequest.Validate, validationErrors, requiredInt, requiredString,
        h1, h2, h3]
  · intro v
    by_cases h1 : v.ConfigID = 0 <;> by_cases h2 : v.Version = 0 <;>
      by_cases h3 : v.PolicyID = "" <;>
      simp [GetReputationAnalysisRequest.Validate, validationErrors, requiredInt,
        requiredString, h1, h2, h3]
  · intro v
    by_cases h1 : v.ConfigID = 0 <;> by_cases h2 : v.Version = 0 <;>
      by_cases h3 : v.PolicyID = "" <;>
      simp [UpdateReputationAnalysisRequest.Validate, validationErrors, requiredInt,
        requiredString, h1, h2, h3]
  · intro v
    by_cases h1 : v.ConfigID = 0 <;> by_cases h2 : v.Version = 0 <;>
      by_cases h3 : v.PolicyID = "" <;>
      simp [RemoveReputationAnalysisRequest.Validate, validationErrors, requiredInt,
        requiredString, h1, h2, h3]
  · intro v
    by_cases h1 : v.ConfigID = 0 <;> by_cases h2 : v.Version = 0 <;>
      by_cases h3 : v.PolicyID = "" <;>
      simp [GetAttackGroupRequest.Validate, validationErrors, requiredInt, requiredString,
        h1, h2, h3]
  · intro v
    by_cases h1 : v.ConfigID = 0 <;> by_cases h2 : v.Version = 0 <;>
      by_cases h3 : v.PolicyID = "" <;>
      simp [GetAttackGroupsRequest.Validate, validationErrors, requiredInt, requiredString,
        h1, h2, h3]
  · intro v
    by_cases h1 : v.ConfigID = 0 <;> by_cases h2 : v.Version = 0 <;>
      by_cases h3 : v.PolicyID = "" <;>
      simp [UpdateAttackGroupRequest.Validate, validationErrors, requiredInt, requiredString,
        h1, h2, h3]
  · intro v
    by_cases h1 : v.ConfigID = 0 <;> by_cases h2 : v.ConfigVersion = 0 <;>
      by_cases h3 : v.ReputationProfileId = 0 <;>
      simp [GetReputationProfileRequest.Validate, validationErrors, requiredInt,
        requiredString, h1, h2, h3]
  · intro v
    by_cases h1 : v.ConfigID = 0 <;> by_cases h2 : v.ConfigVersion = 0 <;>
      simp [GetReputationProfilesRequest.Validate, validationErrors, requiredInt,
        requiredString, h1, h2]
  · intro v
    by_cases h1 : v.ConfigID = 0 <;> by_cases h2 : v.ConfigVersion = 0 <;>
      simp [CreateReputationProfileRequest.Validate, validationErrors, requiredInt,
        requiredString, h1, h2]
  · intro v
    by_cases h1 : v.ConfigID = 0 <;> by_cases h2 : v.ConfigVersion = 0 <;>
      by_cases h3 : v.ReputationProfileId = 0 <;>
      simp [UpdateReputationProfileRequest.Validate, validationErrors, requiredInt,
        requiredString, h1, h2, h3]
  · intro v
    by_cases h1 : v.ConfigID = 0 <;> by_cases h2 : v.ConfigVersion = 0 <;>
      by_cases h3 : v.ReputationProfileId = 0 <;>
      simp [RemoveReputationProfileRequest.Validate, validationErrors, requiredInt,
        requiredString, h1, h2, h3]
  · intro v
    by_cases h1 : v.ConfigID = 0 <;> by_cases h2 : v.Version = 0 <;>
      simp [GetApiHostnameCoverageOverlappingRequest.Validate, validationErrors, requiredInt,
        requiredString, h1, h2]
  · intro v
    by_cases h1 : v.ConfigID = 0 <;> by_cases h2 : v.Version = 0 <;>
      simp [GetConfigurationCloneRequest.Validate, validationErrors, requiredInt,
        requiredString, h1, h2]
  · intro v
    by_cases h1 : v.CreateFrom.ConfigID = 0 <;>
      simp [CreateConfigurationCloneRequest.Validate, validationErrors, requiredInt,
        requiredString, h1]
  · intro v
    by_cases h1 : v.ConfigID = 0 <;> by_cases h2 : v.Version = 0 <;>
      simp [GetVersionNotesRequest.Validate, validationErrors, requiredInt, requiredString,
        h1, h2]
  · intro v
    by_cases h1 : v.ConfigID = 0 <;> by_cases h2 : v.Version = 0 <;>
      simp [UpdateVersionNotesRequest.Validate, validationErrors, requiredInt, requiredString,
        h1, h2]

/-- Witness for `validate_names_missing_fields`: a `GetCustomDenyRequest`
with `ConfigID` absent produces the error naming `"ConfigID"`. -/
theorem validate_names_missing_fields_witness :
    "ConfigID" ∈ GetCustomDenyRequest.Validate ⟨0, 2, "deny1"⟩ :=
  (validate_names_missing_fields.1 ⟨0, 2, "deny1"⟩).2.1 (by decide)

/-! ## Claim C7 -/

/-- Claim C7 refuted at a concrete input: with `Hostname` the empty
string, the URL built by `GetApiHostnameCoverageOverlapping` still
contains the `hostname` query parameter (the format string appends
`?hostname=` unconditionally). -/
theorem hostname_parameter_appended_when_empty :
    List.IsInfix "hostname=".data
      (getApiHostnameCoverageOverlappingURL ⟨1, 2, ""⟩).data := by
  decide

/-- Claim C7 as amended: the URL built by every operation contains each
of its required path parameters (the decimal form of the integers, the
string parameters verbatim); the `hostname` query parameter of
`GetApiHostnameCoverageOverlapping`, however, is appended for every
request — with an empty value when `Hostname` is empty — rather than
only when non-default.  (`CreateConfigurationClone` formats no path
parameter: its URL is the constant `createConfigurationCloneURL`.) -/
theorem urls_contain_required_path_parameters :
    (∀ v : GetCustomDenyRequest,
      urlHasPart (getCustomDenyURL v) (toString v.ConfigID) ∧
      urlHasPart (getCustomDenyURL v) (toString v.Version) ∧
      urlHasPart (getCustomDenyURL v) v.ID) ∧
    (∀ v : GetCustomDenyListRequest,
      urlHasPart (getCustomDenyListURL v) (toString v.ConfigID) ∧
      urlHasPart (getCustomDenyListURL v) (toString v.Version)) ∧
    (∀ v : UpdateCustomDenyRequest,
      urlHasPart (updateCustomDenyURL v) (toString v.ConfigID) ∧
      urlHasPart (updateCustomDenyURL v) (toString v.Version) ∧
      urlHasPart (updateCustomDenyURL v) v.ID) ∧
    (∀ v : CreateCustomDenyRequest,
      urlHasPart (createCustomDenyURL v) (toString v.ConfigID) ∧
      urlHasPart (createCustomDenyURL v) (toString v.Version)) ∧
    (∀ v : RemoveCustomDenyRequest,
      urlHasPart (removeCustomDenyURL v) (toString v.ConfigID) ∧
      urlHasPart (removeCustomDenyURL v) (toString v.Version) ∧
      urlHasPart (removeCustomDenyURL v) v.ID) ∧
    (∀ v : GetMatchTargetRequest,
      urlHasPart (getMatchTargetURL v) (toString v.ConfigID) ∧
      urlHasPart (getMatchTargetURL v) (toString v.ConfigVersion) ∧
      urlHasPart (getMatchTargetURL v) (toString v.TargetID)) ∧
    (∀ v : GetMatchTargetsRequest,
      urlHasPart (getMatchTargetsURL v) (toString v.ConfigID) ∧
      urlHasPart (getMatchTargetsURL v) (toString v.ConfigVersion)) ∧
    (∀ v : UpdateMatchTargetRequest,
      urlHasPart (updateMatchTargetURL v) (toString v.ConfigID) ∧
      urlHasPart (updateMatchTargetURL v) (toString v.ConfigVersion) ∧
      urlHasPart (updateMatchTargetURL v) (toString v.TargetID)) ∧
    (∀ v : CreateMatchTargetRequest,
      urlHasPart (createMatchTargetURL v) (toString v.ConfigID) ∧
      urlHasPart (createMatchTargetURL v) (toString v.ConfigVersion)) ∧
    (∀ v : RemoveMatchTargetRequest,
      urlHasPart (removeMatchTargetURL v) (toString v.ConfigID) ∧
      urlHasPart (removeMatchTargetURL v) (toString v.ConfigVersion) ∧
      urlHasPart (removeMatchTargetURL v) (toString v.TargetID)) ∧
    (∀ v : GetReputationAnalysisRequest,
      urlHasPart (getReputationAnalysisURL v) (toString v.ConfigID) ∧
      urlHasPart (getReputationAnalysisURL v) (toString v.Version) ∧
      urlHasPart (getReputationAnalysisURL v) v.PolicyID) ∧
    (∀ v : UpdateReputationAnalysisRequest,
      urlHasPart (updateReputationAnalysisURL v) (toString v.ConfigID) ∧
      urlHasPart (updateReputationAnalysisURL v) (toString v.Version) ∧
      urlHasPart (updateReputationAnalysisURL v) v.PolicyID) ∧
    (∀ v : RemoveReputationAnalysisRequest,
      urlHasPart (removeReputationAnalysisURL v) (toString v.ConfigID) ∧
      urlHasPart (removeReputationAnalysisURL v) (toString v.Version) ∧
      urlHasPart (removeReputationAnalysisURL v) v.PolicyID) ∧
    (∀ v : GetAttackGroupRequest,
      urlHasPart (getAttackGroupURL v) (toString v.ConfigID) ∧
      urlHasPart (getAttackGroupURL v) (toString v.Version) ∧
      urlHasPart (getAttackGroupURL v) v.PolicyID ∧
      urlHasPart (getAttackGroupURL v) v.Group) ∧
    (∀ v : GetAttackGroupsRequest,
      urlHasPart (getAttackGroupsURL v) (toString v.ConfigID) ∧
      urlHasPart (getAttackGroupsURL v) (toString v.Version) ∧
      urlHasPart (getAttackGroupsURL v) v.PolicyID) ∧
    (∀ v : UpdateAttackGroupRequest,
      urlHasPart (updateAttackGroupURL v) (toString v.ConfigID) ∧
      urlHasPart (updateAttackGroupURL v) (toString v.Version) ∧
      urlHasPart (updateAttackGroupURL v) v.PolicyID ∧
      urlHasPart (updateAttackGroupURL v) v.Group) ∧
    (∀ v : GetReputationProfileRequest,
      urlHasPart (getReputationProfileURL v) (toString v.ConfigID) ∧
      urlHasPart (getReputationProfileURL v) (toString v.ConfigVersion) ∧
      urlHasPart (getReputationProfileURL v) (toString v.ReputationProfileId)) ∧
    (∀ v : GetReputationProfilesRequest,
      urlHasPart (getReputationProfilesURL v) (toString v.ConfigID) ∧
      urlHasPart (getReputationProfilesURL v) (toString v.ConfigVersion)) ∧
    (∀ v : UpdateReputationProfileRequest,
      urlHasPart (updateReputationProfileURL v) (toString v.ConfigID) ∧
      urlHasPart (updateReputationProfileURL v) (toString v.ConfigVersion) ∧
      urlHasPart (updateReputationProfileURL v) (toString v.ReputationProfileId)) ∧
    (∀ v : CreateReputationProfileRequest,
      urlHasPart (createReputationProfileURL v) (toString v.ConfigID) ∧
      urlHasPart (createReputationProfileURL v) (toString v.ConfigVersion)) ∧
    (∀ v : RemoveReputationProfileRequest,
      urlHasPart (removeReputationProfileURL v) (toString v.ConfigID) ∧
      urlHasPart (removeReputationProfileURL v) (toString v.ConfigVersion) ∧
      urlHasPart (removeReputationProfileURL v) (toString v.ReputationProfileId)) ∧
    (∀ v : GetApiHostnameCoverageOverlappingRequest,
      urlHasPart (getApiHostnameCoverageOverlappingURL v) (toString v.ConfigID) ∧
      urlHasPart (getApiHostnameCoverageOverlappingURL v) (toString v.Version)) ∧
    (∀ v : GetApiHostnameCoverageOverlappingRequest,
      ∃ a, getApiHostnameCoverageOverlappingURL v = a ++ ("?hostname=" ++ v.Hostname)) ∧
    (∀ v : GetConfigurationCloneRequest,
      urlHasPart (getConfigurationCloneURL v) (toString v.ConfigID) ∧
      urlHasPart (getConfigurationCloneURL v) (toString v.Version)) ∧
    (∀ v : GetVersionNotesRequest,
      urlHasPart (getVersionNotesURL v) (toString v.ConfigID) ∧
      urlHasPart (getVersionNotesURL v) (toString v.Version)) ∧
    (∀ v : UpdateVersionNotesRequest,
      urlHasPart (updateVersionNotesURL v) (toString v.ConfigID) ∧
      urlHasPart (updateVersionNotesURL v) (toString v.Version)) := by
  refine ⟨?_, ?_, ?_, ?_, ?_, ?_, ?_, ?_, ?_, ?_, ?_, ?_, ?_, ?_, ?_, ?_, ?_, ?_, ?_, ?_,
    ?_, ?_, ?_, ?_, ?_, ?_⟩
  · intro v
    exact ⟨⟨"/appsec/v1/configs/",
        "/versions/" ++ toString v.Version ++ "/custom-deny/" ++ v.ID,
        by simp [getCustomDenyURL, String.append_assoc]⟩,
      ⟨"/appsec/v1/configs/" ++ toString v.ConfigID ++ "/versions/",
        "/custom-deny/" ++ v.ID, by simp [getCustomDenyURL, String.append_assoc]⟩,
      ⟨"/appsec/v1/configs/" ++ toString v.ConfigID ++ "/versions/" ++ toString v.Version ++
        "/custom-deny/", "", by simp [getCustomDenyURL, String.append_assoc]⟩⟩
  · intro v
    exact ⟨⟨"/appsec/v1/configs/", "/versions/" ++ toString v.Version ++ "/custom-deny",
        by simp [getCustomDenyListURL, String.append_assoc]⟩,
      ⟨"/appsec/v1/configs/" ++ toString v.ConfigID ++ "/versions/", "/custom-deny",
        by simp [getCustomDenyListURL, String.append_assoc]⟩⟩
  · intro v
    exact ⟨⟨"/appsec/v1/configs/",
        "/versions/" ++ toString v.Version ++ "/custom-deny/" ++ v.ID,
        by simp [updateCustomDenyURL, String.append_assoc]⟩,
      ⟨"/appsec/v1/configs/" ++ toString v.ConfigID ++ "/versions/",
        "/custom-deny/" ++ v.ID, by simp [updateCustomDenyURL, String.append_assoc]⟩,
      ⟨"/appsec/v1/configs/" ++ toString v.ConfigID ++ "/versions/" ++ toString v.Version ++
        "/custom-deny/", "", by simp [updateCustomDenyURL, String.append_assoc]⟩⟩
  · intro v
    exact ⟨⟨"/appsec/v1/configs/", "/versions/" ++ toString v.Version ++ "/custom-deny",
        by simp [createCustomDenyURL, String.append_assoc]⟩,
      ⟨"/appsec/v1/configs/" ++ toString v.ConfigID ++ "/versions/", "/custom-deny",
        by simp [createCustomDenyURL, String.append_assoc]⟩⟩
  · intro v
    exact ⟨⟨"/appsec/v1/configs/",
        "/versions/" ++ toString v.Version ++ "/custom-deny/" ++ v.ID,
        by simp [removeCustomDenyURL, String.append_assoc]⟩,
      ⟨"/appsec/v1/configs/" ++ toString v.ConfigID ++ "/versions/",
        "/custom-deny/" ++ v.ID, by simp [removeCustomDenyURL, String.append_assoc]⟩,
      ⟨"/appsec/v1/configs/" ++ toString v.ConfigID ++ "/versions/" ++ toString v.Version ++
        "/custom-deny/", "", by simp [removeCustomDenyURL, String.append_assoc]⟩⟩
  · intro v
    exact ⟨⟨"/appsec/v1/configs/",
        "/versions/" ++ toString v.ConfigVersion ++ "/match-targets/" ++
          toString v.TargetID ++ "?includeChildObjectName=true",
        by simp [getMatchTargetURL, String.append_assoc]⟩,
      ⟨"/appsec/v1/configs/" ++ toString v.ConfigID ++ "/versions/",
        "/match-targets/" ++ toString v.TargetID ++ "?includeChildObjectName=true",
        by simp [getMatchTargetURL, String.append_assoc]⟩,
      ⟨"/appsec/v1/configs/" ++ toString v.ConfigID ++ "/versions/" ++
        toString v.ConfigVersion ++ "/match-targets/", "?includeChildObjectName=true",
        by simp [getMatchTargetURL, String.append_assoc]⟩⟩
  · intro v
    exact ⟨⟨"/appsec/v1/configs/",
        "/versions/" ++ toString v.ConfigVersion ++ "/match-targets",
        by simp [getMatchTargetsURL, String.append_assoc]⟩,
      ⟨"/appsec/v1/configs/" ++ toString v.ConfigID ++ "/versions/", "/match-targets",
        by simp [getMatchTargetsURL, String.append_assoc]⟩⟩
  · intro v
    exact ⟨⟨"/appsec/v1/configs/",
        "/versions/" ++ toString v.ConfigVersion ++ "/match-targets/" ++ toString v.TargetID,
        by simp [updateMatchTargetURL, String.append_assoc]⟩,
      ⟨"/appsec/v1/configs/" ++ toString v.ConfigID ++ "/versions/",
        "/match-targets/" ++ toString v.TargetID,
        by simp [updateMatchTargetURL, String.append_assoc]⟩,
      ⟨"/appsec/v1/configs/" ++ toString v.ConfigID ++ "/versions/" ++
        toString v.ConfigVersion ++ "/match-targets/", "",
        by simp [updateMatchTargetURL, String.append_assoc]⟩⟩
  · intro v
    exact ⟨⟨"/appsec/v1/configs/",
        "/versions/" ++ toString v.ConfigVersion ++ "/match-targets",
        by simp [createMatchTargetURL, String.append_assoc]⟩,
      ⟨"/appsec/v1/configs/" ++ toString v.ConfigID ++ "/versions/", "/match-targets",
        by simp [createMatchTargetURL, String.append_assoc]⟩⟩
  · intro v
    exact ⟨⟨"/appsec/v1/configs/",
        "/versions/" ++ toString v.ConfigVersion ++ "/match-targets/" ++ toString v.TargetID,
        by simp [removeMatchTargetURL, String.append_assoc]⟩,
      ⟨"/appsec/v1/configs/" ++ toString v.ConfigID ++ "/versions/",
        "/match-targets/" ++ toString v.TargetID,
        by simp [removeMatchTargetURL, String.append_assoc]⟩,
      ⟨"/appsec/v1/configs/" ++ toString v.ConfigID ++ "/versions/" ++
        toString v.ConfigVersion ++ "/match-targets/", "",
        by simp [removeMatchTargetURL, String.append_assoc]⟩⟩
  · intro v
    exact ⟨⟨"/appsec/v1/configs/",
        "/versions/" ++ toString v.Version ++ "/security-policies/" ++ v.PolicyID ++
          "/reputation-analysis",
        by simp [getReputationAnalysisURL, String.append_assoc]⟩,
      ⟨"/appsec/v1/configs/" ++ toString v.ConfigID ++ "/versions/",
        "/security-policies/" ++ v.PolicyID ++ "/reputation-analysis",
        by simp [getReputationAnalysisURL, String.append_assoc]⟩,
      ⟨"/appsec/v1/configs/" ++ toString v.ConfigID ++ "/versions/" ++ toString v.Version ++
        "/security-policies/", "/reputation-analysis",
        by simp [getReputationAnalysisURL, String.append_assoc]⟩⟩
  · intro v
    exact ⟨⟨"/appsec/v1/configs/",
        "/versions/" ++ toString v.Version ++ "/security-policies/" ++ v.PolicyID ++
          "/reputation-analysis",
        by simp [updateReputationAnalysisURL, String.append_assoc]⟩,
      ⟨"/appsec/v1/configs/" ++ toString v.ConfigID ++ "/versions/",
        "/security-policies/" ++ v.PolicyID ++ "/reputation-analysis",
        by simp [updateReputationAnalysisURL, String.append_assoc]⟩,
      ⟨"/appsec/v1/configs/" ++ toString v.ConfigID ++ "/versions/" ++ toString v.Version ++
        "/security-policies/", "/reputation-analysis",
        by simp [updateReputationAnalysisURL, String.append_assoc]⟩⟩
  · intro v
    exact ⟨⟨"/appsec/v1/configs/",
        "/versions/" ++ toString v.Version ++ "/security-policies/" ++ v.PolicyID ++
          "/reputation-analysis",
        by simp [removeReputationAnalysisURL, String.append_assoc]⟩,
      ⟨"/appsec/v1/configs/" ++ toString v.ConfigID ++ "/versions/",
        "/security-policies/" ++ v.PolicyID ++ "/reputation-analysis",
        by simp [removeReputationAnalysisURL, String.append_assoc]⟩,
      ⟨"/appsec/v1/configs/" ++ toString v.ConfigID ++ "/versions/" ++ toString v.Version ++
        "/security-policies/", "/reputation-analysis",
        by simp [removeReputationAnalysisURL, String.append_assoc]⟩⟩
  · intro v
    exact ⟨⟨"/appsec/v1/configs/",
        "/versions/" ++ toString v.Version ++ "/security-policies/" ++ v.PolicyID ++
          "/attack-groups/" ++ v.Group ++ "?includeConditionException=true",
        by simp [getAttackGroupURL, String.append_assoc]⟩,
      ⟨"/appsec/v1/configs/" ++ toString v.ConfigID ++ "/versions/",
        "/security-policies/" ++ v.PolicyID ++ "/attack-groups/" ++ v.Group ++
          "?includeConditionException=true",
        by simp [getAttackGroupURL, String.append_assoc]⟩,
      ⟨"/appsec/v1/configs/" ++ toString v.ConfigID ++ "/versions/" ++ toString v.Version ++
        "/security-policies/",
        "/attack-groups/" ++ v.Group ++ "?includeConditionException=true",
        by simp [getAttackGroupURL, String.append_assoc]⟩,
      ⟨"/appsec/v1/configs/" ++ toString v.ConfigID ++ "/versions/" ++ toString v.Version ++
        "/security-policies/" ++ v.PolicyID ++ "/attack-groups/",
        "?includeConditionException=true",
        by simp [getAttackGroupURL, String.append_assoc]⟩⟩
  · intro v
    exact ⟨⟨"/appsec/v1/configs/",
        "/versions/" ++ toString v.Version ++ "/security-policies/" ++ v.PolicyID ++
          "/attack-groups?includeConditionException=true",
        by simp [getAttackGroupsURL, String.append_assoc]⟩,
      ⟨"/appsec/v1/configs/" ++ toString v.ConfigID ++ "/versions/",
        "/security-policies/" ++ v.PolicyID ++
          "/attack-groups?includeConditionException=true",
        by simp [getAttackGroupsURL, String.append_assoc]⟩,
      ⟨"/appsec/v1/configs/" ++ toString v.ConfigID ++ "/versions/" ++ toString v.Version ++
        "/security-policies/", "/attack-groups?includeConditionException=true",
        by simp [getAttackGroupsURL, String.append_assoc]⟩⟩
  · intro v
    exact ⟨⟨"/appsec/v1/configs/",
        "/versions/" ++ toString v.Version ++ "/security-policies/" ++ v.PolicyID ++
          "/attack-groups/" ++ v.Group ++ "/action-condition-exception",
        by simp [updateAttackGroupURL, String.append_assoc]⟩,
      ⟨"/appsec/v1/configs/" ++ toString v.ConfigID ++ "/versions/",
        "/security-policies/" ++ v.PolicyID ++ "/attack-groups/" ++ v.Group ++
          "/action-condition-exception",
        by simp [updateAttackGroupURL, String.append_assoc]⟩,
      ⟨"/appsec/v1/configs/" ++ toString v.ConfigID ++ "/versions/" ++ toString v.Version ++
        "/security-policies/",
        "/attack-groups/" ++ v.Group ++ "/action-condition-exception",
        by simp [updateAttackGroupURL, String.append_assoc]⟩,
      ⟨"/appsec/v1/configs/" ++ toString v.ConfigID ++ "/versions/" ++ toString v.Version ++
        "/security-policies/" ++ v.PolicyID ++ "/attack-groups/",
        "/action-condition-exception",
        by simp [updateAttackGroupURL, String.append_assoc]⟩⟩
  · intro v
    exact ⟨⟨"/appsec/v1/configs/",
        "/versions/" ++ toString v.ConfigVersion ++ "/reputation-profiles/" ++
          toString v.ReputationProfileId,
        by simp [getReputationProfileURL, String.append_assoc]⟩,
      ⟨"/appsec/v1/configs/" ++ toString v.ConfigID ++ "/versions/",
        "/reputation-profiles/" ++ toString v.ReputationProfileId,
        by simp [getReputationProfileURL, String.append_assoc]⟩,
      ⟨"/appsec/v1/configs/" ++ toString v.ConfigID ++ "/versions/" ++
        toString v.ConfigVersion ++ "/reputation-profiles/", "",
        by simp [getReputationProfileURL, String.append_assoc]⟩⟩
  · intro v
    exact ⟨⟨"/appsec/v1/configs/",
        "/versions/" ++ toString v.ConfigVersion ++ "/reputation-profiles",
        by simp [getReputationProfilesURL, String.append_assoc]⟩,
      ⟨"/appsec/v1/configs/" ++ toString v.ConfigID ++ "/versions/", "/reputation-profiles",
        by simp [getReputationProfilesURL, String.append_assoc]⟩⟩
  · intro v
    exact ⟨⟨"/appsec/v1/configs/",
        "/versions/" ++ toString v.ConfigVersion ++ "/reputation-profiles/" ++
          toString v.ReputationProfileId,
        by simp [updateReputationProfileURL, String.append_assoc]⟩,
      ⟨"/appsec/v1/configs/" ++ toString v.ConfigID ++ "/versions/",
        "/reputation-profiles/" ++ toString v.ReputationProfileId,
        by simp [updateReputationProfileURL, String.append_assoc]⟩,
      ⟨"/appsec/v1/configs/" ++ toString v.ConfigID ++ "/versions/" ++
        toString v.ConfigVersion ++ "/reputation-profiles/", "",
        by simp [updateReputationProfileURL, String.append_assoc]⟩⟩
  · intro v
    exact ⟨⟨"/appsec/v1/configs/",
        "/versions/" ++ toString v.ConfigVersion ++ "/reputation-profiles",
        by simp [createReputationProfileURL, String.append_assoc]⟩,
      ⟨"/appsec/v1/configs/" ++ toString v.ConfigID ++ "/versions/", "/reputation-profiles",
        by simp [createReputationProfileURL, String.append_assoc]⟩⟩
  · intro v
    exact ⟨⟨"/appsec/v1/configs/",
        "/versions/" ++ toString v.ConfigVersion ++ "/reputation-profiles/" ++
          toString v.ReputationProfileId,
        by simp [removeReputationProfileURL, String.append_assoc]⟩,
      ⟨"/appsec/v1/configs/" ++ toString v.ConfigID ++ "/versions/",
        "/reputation-profiles/" ++ toString v.ReputationProfileId,
        by simp [removeReputationProfileURL, String.append_assoc]⟩,
      ⟨"/appsec/v1/configs/" ++ toString v.ConfigID ++ "/versions/" ++
        toString v.ConfigVersion ++ "/reputation-profiles/", "",
        by simp [removeReputationProfileURL, String.append_assoc]⟩⟩
  · intro v
    exact ⟨⟨"/appsec/v1/configs/",
        "/versions/" ++ toString v.Version ++ "/hostname-coverage/overlapping?hostname=" ++
          v.Hostname,
        by simp [getApiHostnameCoverageOverlappingURL, String.append_assoc]⟩,
      ⟨"/appsec/v1/configs/" ++ toString v.ConfigID ++ "/versions/",
        "/hostname-coverage/overlapping?hostname=" ++ v.Hostname,
        by simp [getApiHostnameCoverageOverlappingURL, String.append_assoc]⟩⟩
  · intro v
    exact ⟨"/appsec/v1/configs/" ++ toString v.ConfigID ++ "/versions/" ++
        toString v.Version ++ "/hostname-coverage/overlapping",
      by simp only [getApiHostnameCoverageOverlappingURL, String.append_assoc]; rfl⟩
  · intro v
    exact ⟨⟨"/appsec/v1/configs/", "/versions/" ++ toString v.Version,
        by simp [getConfigurationCloneURL, String.append_assoc]⟩,
      ⟨"/appsec/v1/configs/" ++ toString v.ConfigID ++ "/versions/", "",
        by simp [getConfigurationCloneURL, String.append_assoc]⟩⟩
  · intro v
    exact ⟨⟨"/appsec/v1/configs/", "/versions/" ++ toString v.Version ++ "/version-notes",
        by simp [getVersionNotesURL, String.append_assoc]⟩,
      ⟨"/appsec/v1/configs/" ++ toString v.ConfigID ++ "/versions/", "/version-notes",
        by simp [getVersionNotesURL, String.append_assoc]⟩⟩
  · intro v
    exact ⟨⟨"/appsec/v1/configs/", "/versions/" ++ toString v.Version ++ "/version-notes",
        by simp [updateVersionNotesURL, String.append_assoc]⟩,
      ⟨"/appsec/v1/configs/" ++ toString v.ConfigID ++ "/versions/", "/version-notes",
        by simp [updateVersionNotesURL, String.append_assoc]⟩⟩

/-! ## Claim C8 -/

/-- Claim C8: for every `UpdateCustomDenyRequest` that passes validation,
the single call handed to `Exec` is a PUT whose body is exactly the
caller-supplied `JsonPayloadRaw` bytes; and when the server answers with
status 500, the operation returns the nil response and the structured API
error for that response. -/
theorem updateCustomDeny_sends_raw_payload :
    (∀ (params : UpdateCustomDenyRequest)
      (exec : ExecCall → ExecOutcome UpdateCustomDenyResponse),
      params.Validate = [] →
      (updateCustomDeny exec params).1 =
        [⟨.put, updateCustomDenyURL params, some (.rawPayload params.JsonPayloadRaw)⟩]) ∧
    (∀ (params : UpdateCustomDenyRequest) (body : UpdateCustomDenyResponse),
      params.Validate = [] →
      (updateCustomDeny (fun _ => .resp 500 body) params).2 = .error (.apiErr 500)) := by
  constructor
  · intro params exec h
    cases hx : exec ⟨.put, updateCustomDenyURL params,
        some (.rawPayload params.JsonPayloadRaw)⟩ with
    | err e => simp [updateCustomDeny, h, hx]
    | resp s b => by_cases hs : s ≠ 200 ∧ s ≠ 201 <;> simp [updateCustomDeny, h, hx, hs]
  · intro params body h
    simp [updateCustomDeny, h]

/-- Witness for `updateCustomDeny_sends_raw_payload` at a concrete valid
request with raw payload bytes "rawbytes". -/
theorem updateCustomDeny_sends_raw_payload_witness :
    UpdateCustomDenyRequest.Validate ⟨1, 2, "deny1", "rawbytes"⟩ = [] ∧
    (updateCustomDeny (fun _ => .err "down") ⟨1, 2, "deny1", "rawbytes"⟩).1 =
      [⟨.put, updateCustomDenyURL ⟨1, 2, "deny1", "rawbytes"⟩,
        some (.rawPayload "rawbytes")⟩] ∧
    (updateCustomDeny (fun _ => .resp 500 ⟨"", "", "", []⟩) ⟨1, 2, "deny1", "rawbytes"⟩).2 =
      .error (.apiErr 500) :=
  ⟨by decide,
    updateCustomDeny_sends_raw_payload.1 ⟨1, 2, "deny1", "rawbytes"⟩
      (fun _ => .err "down") (by decide),
    updateCustomDeny_sends_raw_payload.2 ⟨1, 2, "deny1", "rawbytes"⟩ ⟨"", "", "", []⟩
      (by decide)⟩

/-! ## Claim C10 -/

/-- Claim C10 refuted at a concrete input: although the all-zero
`RemoveReputationAnalysisRequest` fails validation, the unvalidated
`RemoveReputationAnalysis` operation addresses the zero-identified
resource anyway — its call reaches `Exec` and, with the server answering
200, the operation even succeeds. -/
theorem zero_identifiers_reach_transport :
    RemoveReputationAnalysisRequest.Validate ⟨0, 0, "", false, false⟩ ≠ [] ∧
    removeReputationAnalysis (fun _ => .resp 200 ⟨false, false⟩) ⟨0, 0, "", false, false⟩ =
      ([⟨.put, "/appsec/v1/configs/0/versions/0/security-policies//reputation-analysis",
          some (.removeReputationAnalysisParams ⟨0, 0, "", false, false⟩)⟩],
        .ok ⟨false, false⟩) :=
  ⟨by decide, rfl⟩

/-- Claim C10 as amended: every `Validate` method treats the Go zero
value of a required field as missing — a request with `ConfigID` 0,
`Version`/`ConfigVersion` 0, or a required string field empty fails
validation — but because `RemoveReputationAnalysis` never validates, a
resource whose identifiers are zero can still be addressed through that
one operation (its call always reaches `Exec`). -/
theorem validate_rejects_zero_values :
    (∀ v : GetCustomDenyRequest,
      v.ConfigID = 0 ∨ v.Version = 0 ∨ v.ID = "" → v.Validate ≠ []) ∧
    (∀ v : GetCustomDenyListRequest,
      v.ConfigID = 0 ∨ v.Version = 0 → v.Validate ≠ []) ∧
    (∀ v : CreateCustomDenyRequest,
      v.ConfigID = 0 ∨ v.Version = 0 → v.Validate ≠ []) ∧
    (∀ v : UpdateCustomDenyRequest,
      v.ConfigID = 0 ∨ v.Version = 0 ∨ v.ID = "" → v.Validate ≠ []) ∧
    (∀ v : RemoveCustomDenyRequest,
      v.ConfigID = 0 ∨ v.Version = 0 ∨ v.ID = "" → v.Validate ≠ []) ∧
    (∀ v : GetMatchTargetRequest,
      v.ConfigID = 0 ∨ v.ConfigVersion = 0 ∨ v.TargetID = 0 → v.Validate ≠ []) ∧
    (∀ v : GetMatchTargetsRequest,
      v.ConfigID = 0 ∨ v.ConfigVersion = 0 → v.Validate ≠ []) ∧
    (∀ v : CreateMatchTargetRequest,
      v.ConfigID = 0 ∨ v.ConfigVersion = 0 → v.Validate ≠ []) ∧
    (∀ v : UpdateMatchTargetRequest,
      v.ConfigID = 0 ∨ v.ConfigVersion = 0 ∨ v.TargetID = 0 → v.Validate ≠ []) ∧
    (∀ v : RemoveMatchTargetRequest,
      v.ConfigID = 0 ∨ v.ConfigVersion = 0 ∨ v.TargetID = 0 → v.Validate ≠ []) ∧
    (∀ v : GetReputationAnalysisRequest,
      v.ConfigID = 0 ∨ v.Version = 0 ∨ v.PolicyID = "" → v.Validate ≠ []) ∧
    (∀ v : UpdateReputationAnalysisRequest,
      v.ConfigID = 0 ∨ v.Version = 0 ∨ v.PolicyID = "" → v.Validate ≠ []) ∧
    (∀ v : RemoveReputationAnalysisRequest,
      v.ConfigID = 0 ∨ v.Version = 0 ∨ v.PolicyID = "" → v.Validate ≠ []) ∧
    (∀ v : GetAttackGroupRequest,
      v.ConfigID = 0 ∨ v.Version = 0 ∨ v.PolicyID = "" → v.Validate ≠ []) ∧
    (∀ v : GetAttackGroupsRequest,
      v.ConfigID = 0 ∨ v.Version = 0 ∨ v.PolicyID = "" → v.Validate ≠ []) ∧
    (∀ v : UpdateAttackGroupRequest,
      v.ConfigID = 0 ∨ v.Version = 0 ∨ v.PolicyID = "" → v.Validate ≠ []) ∧
    (∀ v : GetReputationProfileRequest,
      v.ConfigID = 0 ∨ v.ConfigVersion = 0 ∨ v.ReputationProfileId = 0 → v.Validate ≠ []) ∧
    (∀ v : GetReputationProfilesRequest,
      v.ConfigID = 0 ∨ v.ConfigVersion = 0 → v.Validate ≠ []) ∧
    (∀ v : CreateReputationProfileRequest,
      v.ConfigID = 0 ∨ v.ConfigVersion = 0 → v.Validate ≠ []) ∧
    (∀ v : UpdateReputationProfileRequest,
      v.ConfigID = 0 ∨ v.ConfigVersion = 0 ∨ v.ReputationProfileId = 0 → v.Validate ≠ []) ∧
    (∀ v : RemoveReputationProfileRequest,
      v.ConfigID = 0 ∨ v.ConfigVersion = 0 ∨ v.ReputationProfileId = 0 → v.Validate ≠ []) ∧
    (∀ v : GetApiHostnameCoverageOverlappingRequest,
      v.ConfigID = 0 ∨ v.Version = 0 → v.Validate ≠ []) ∧
    (∀ v : GetConfigurationCloneRequest,
      v.ConfigID = 0 ∨ v.Version = 0 → v.Validate ≠ []) ∧
    (∀ v : CreateConfigurationCloneRequest,
      v.CreateFrom.ConfigID = 0 → v.Validate ≠ []) ∧
    (∀ v : GetVersionNotesRequest,
      v.ConfigID = 0 ∨ v.Version = 0 → v.Validate ≠ []) ∧
    (∀ v : UpdateVersionNotesRequest,
      v.ConfigID = 0 ∨ v.Version = 0 → v.Validate ≠ []) ∧
    (∀ (exec : ExecCall → ExecOutcome RemoveReputationAnalysisResponse)
      (params : RemoveReputationAnalysisRequest),
      (removeReputationAnalysis exec params).1 ≠ []) := by
  refine ⟨?_, ?_, ?_, ?_, ?_, ?_, ?_, ?_, ?_, ?_, ?_, ?_, ?_, ?_, ?_, ?_, ?_, ?_, ?_, ?_,
    ?_, ?_, ?_, ?_, ?_, ?_, ?_⟩
  · intro v h
    by_cases h1 : v.ConfigID = 0 <;> by_cases h2 : v.Version = 0 <;> by_cases h3 : v.ID = "" <;>
      simp [GetCustomDenyRequest.Validate, validationErrors, requiredInt, requiredString,
        h1, h2, h3] <;> tauto
  · intro v h
    by_cases h1 : v.ConfigID = 0 <;> by_cases h2 : v.Version = 0 <;>
      simp [GetCustomDenyListRequest.Validate, validationErrors, requiredInt, requiredString,
        h1, h2] <;> tauto
  · intro v h
    by_cases h1 : v.ConfigID = 0 <;> by_cases h2 : v.Version = 0 <;>
      simp [CreateCustomDenyRequest.Validate, validationErrors, requiredInt, requiredString,
        h1, h2] <;> tauto
  · intro v h
    by_cases h1 : v.ConfigID = 0 <;> by_cases h2 : v.Version = 0 <;> by_cases h3 : v.ID = "" <;>
      simp [UpdateCustomDenyRequest.Validate, validationErrors, requiredInt, requiredString,
        h1, h2, h3] <;> tauto
  · intro v h
    by_cases h1 : v.ConfigID = 0 <;> by_cases h2 : v.Version = 0 <;> by_cases h3 : v.ID = "" <;>
      simp [RemoveCustomDenyRequest.Validate, validationErrors, requiredInt, requiredString,
        h1, h2, h3] <;> tauto
  · intro v h
    by_cases h1 : v.ConfigID = 0 <;> by_cases h2 : v.ConfigVersion = 0 <;>
      by_cases h3 : v.TargetID = 0 <;>
      simp [GetMatchTargetRequest.Validate, validationErrors, requiredInt, requiredString,
        h1, h2, h3] <;> tauto
  · intro v h
    by_cases h1 : v.ConfigID = 0 <;> by_cases h2 : v.ConfigVersion = 0 <;>
      simp [GetMatchTargetsRequest.Validate, validationErrors, requiredInt, requiredString,
        h1, h2] <;> tauto
  · intro v h
    by_cases h1 : v.ConfigID = 0 <;> by_cases h2 : v.ConfigVersion = 0 <;>
      simp [CreateMatchTargetRequest.Validate, validationErrors, requiredInt, requiredString,
        h1, h2] <;> tauto
  · intro v h
    by_cases h1 : v.ConfigID = 0 <;> by_cases h2 : v.ConfigVersion = 0 <;>
      by_cases h3 : v.TargetID = 0 <;>
      simp [UpdateMatchTargetRequest.Validate, validationErrors, requiredInt, requiredString,
        h1, h2, h3] <;> tauto
  · intro v h
    by_cases h1 : v.ConfigID = 0 <;> by_cases h2 : v.ConfigVersion = 0 <;>
      by_cases h3 : v.TargetID = 0 <;>
      simp [RemoveMatchTargetRequest.Validate, validationErrors, requiredInt, requiredString,
        h1, h2, h3] <;> tauto
  · intro v h
    by_cases h1 : v.ConfigID = 0 <;> by_cases h2 : v.Version = 0 <;>
      by_cases h3 : v.PolicyID = "" <;>
      simp [GetReputationAnalysisRequest.Validate, validationErrors, requiredInt,
        requiredString, h1, h2, h3] <;> tauto
  · intro v h
    by_cases h1 : v.ConfigID = 0 <;> by_cases h2 : v.Version = 0 <;>
      by_cases h3 : v.PolicyID = "" <;>
      simp [UpdateReputationAnalysisRequest.Validate, validationErrors, requiredInt,
        requiredString, h1, h2, h3] <;> tauto
  · intro v h
    by_cases h1 : v.ConfigID = 0 <;> by_cases h2 : v.Version = 0 <;>
      by_cases h3 : v.PolicyID = "" <;>
      simp [RemoveReputationAnalysisRequest.Validate, validationErrors, requiredInt,
        requiredString, h1, h2, h3] <;> tauto
  · intro v h
    by_cases h1 : v.ConfigID = 0 <;> by_cases h2 : v.Version = 0 <;>
      by_cases h3 : v.PolicyID = "" <;>
      simp [GetAttackGroupRequest.Validate, validationErrors, requiredInt, requiredString,
        h1, h2, h3] <;> tauto
  · intro v h
    by_cases h1 : v.ConfigID = 0 <;> by_cases h2 : v.Version = 0 <;>
      by_cases h3 : v.PolicyID = "" <;>
      simp [GetAttackGroupsRequest.Validate, validationErrors, requiredInt, requiredString,
        h1, h2, h3] <;> tauto
  · intro v h
    by_cases h1 : v.ConfigID = 0 <;> by_cases h2 : v.Version = 0 <;>
      by_cases h3 : v.PolicyID = "" <;>
      simp [UpdateAttackGroupRequest.Validate, validationErrors, requiredInt, requiredString,
        h1, h2, h3] <;> tauto
  · intro v h
    by_cases h1 : v.ConfigID = 0 <;> by_cases h2 : v.ConfigVersion = 0 <;>
      by_cases h3 : v.ReputationProfileId = 0 <;>
      simp [GetReputationProfileRequest.Validate, validationErrors, requiredInt,
        requiredString, h1, h2, h3] <;> tauto
  · intro v h
    by_cases h1 : v.ConfigID = 0 <;> by_cases h2 : v.ConfigVersion = 0 <;>
      simp [GetReputationProfilesRequest.Validate, validationErrors, requiredInt,
        requiredString, h1, h2] <;> tauto
  · intro v h
    by_cases h1 : v.ConfigID = 0 <;> by_cases h2 : v.ConfigVersion = 0 <;>
      simp [CreateReputationProfileRequest.Validate, validationErrors, requiredInt,
        requiredString, h1, h2] <;> tauto
  · intro v h
    by_cases h1 : v.ConfigID = 0 <;> by_cases h2 : v.ConfigVersion = 0 <;>
      by_cases h3 : v.ReputationProfileId = 0 <;>
      simp [UpdateReputationProfileRequest.Validate, validationErrors, requiredInt,
        requiredString, h1, h2, h3] <;> tauto
  · intro v h
    by_cases h1 : v.ConfigID = 0 <;> by_cases h2 : v.ConfigVersion = 0 <;>
      by_cases h3 : v.ReputationProfileId = 0 <;>
      simp [RemoveReputationProfileRequest.Validate, validationErrors, requiredInt,
        requiredString, h1, h2, h3] <;> tauto
  · intro v h
    by_cases h1 : v.ConfigID = 0 <;> by_cases h2 : v.Version = 0 <;>
      simp [GetApiHostnameCoverageOverlappingRequest.Validate, validationErrors, requiredInt,
        requiredString, h1, h2] <;> tauto
  · intro v h
    by_cases h1 : v.ConfigID = 0 <;> by_cases h2 : v.Version = 0 <;>
      simp [GetConfigurationCloneRequest.Validate, validationErrors, requiredInt,
        requiredString, h1, h2] <;> tauto
  · intro v h
    simp [CreateConfigurationCloneRequest.Validate, validationErrors, requiredInt,
      requiredString, h]
  · intro v h
    by_cases h1 : v.ConfigID = 0 <;> by_cases h2 : v.Version = 0 <;>
      simp [GetVersionNotesRequest.Validate, validationErrors, requiredInt, requiredString,
        h1, h2] <;> tauto
  · intro v h
    by_cases h1 : v.ConfigID = 0 <;> by_cases h2 : v.Version = 0 <;>
      simp [UpdateVersionNotesRequest.Validate, validationErrors, requiredInt, requiredString,
        h1, h2] <;> tauto
  · intro exec params
    cases hx : exec ⟨.put, removeReputationAnalysisURL params,
        some (.removeReputationAnalysisParams params)⟩ with
    | err e => simp [removeReputationAnalysis, hx]
    | resp s b =>
      by_cases hs : s ≠ 200 ∧ s ≠ 201 <;> simp [removeReputationAnalysis, hx, hs]

/-- Witness for `validate_rejects_zero_values` at concrete zero-valued
requests. -/
theorem validate_rejects_zero_values_witness :
    GetCustomDenyRequest.Validate ⟨0, 2, "deny1"⟩ ≠ [] :=
  validate_rejects_zero_values.1 ⟨0, 2, "deny1"⟩ (by decide)

end Appsec
